import Mathlib

/-!
Shallow embedding of the InsightX AI Analysis Engine
(`backend/app/services/analysis_service.py`) and its data model
(`backend/app/models/schemas.py`), with proofs about the engine's
operations: predicate building, time-window resolution, the metric
expression registry, the computability guard, and the six analytical
operations.

Modelling conventions:
* SQL/DuckDB values are modelled exactly: counts as `Nat`, money and
  rates as `Rat`, SQL `NULL` as `Option`.  `ROUND(x, n)` is modelled as
  exact decimal rounding (half up; every value rounded in this service
  is nonnegative, where half up and half away from zero agree).
* Dates/timestamps are modelled as integers on an abstract day timeline;
  rendering a date into query text uses `toString`.
* Python `str.lower()` is modelled by `pyLower` (ASCII case folding; all
  vocabularies involved are ASCII).  Python `"sep".join(...)` is
  modelled by `pyJoin`.  Thousands separators and fixed-point float
  rendering are abstracted by `toString`-based helpers: the claims
  proved here depend on the numeric contents, not on digit grouping.
* `conn.execute(...)` results are passed to each operation as an
  `Except String df` value: `.error e` models a raised exception caught
  by the operation's `try/except` block.  The "honest" instantiations
  supply the embedded SQL semantics of the exact query each operation
  builds, evaluated over a `List Row` table.
* Python truthiness is preserved where the source relies on it
  (`if period:` skips the empty string; `if by:` treats `[]` as unset).
-/

namespace InsightX

/-! ### String helpers (Python `str.lower`, `str.join`, `in`) -/

/-- ASCII lower-casing of one character, as Python `str.lower` does for
the ASCII vocabularies used by the service. -/
def lowerChar (c : Char) : Char :=
  if 65 ≤ c.toNat ∧ c.toNat ≤ 90 then Char.ofNat (c.toNat + 32) else c

/-- Python `s.lower()` (ASCII). -/
def pyLower (s : String) : String := ⟨s.data.map lowerChar⟩

/-- Python `sep.join(parts)`. -/
def pyJoin (sep : String) : List String → String
  | [] => ""
  | [x] => x
  | x :: y :: xs => x ++ sep ++ pyJoin sep (y :: xs)

/-- Whether `pat` occurs at the start of `l`. -/
def leadsWith : List Char → List Char → Bool
  | [], _ => true
  | _ :: _, [] => false
  | a :: as, b :: bs => a == b && leadsWith as bs

/-- Whether `pat` occurs anywhere in `l` (Python `pat in s` on char lists). -/
def charSub (pat : List Char) : List Char → Bool
  | [] => leadsWith pat []
  | l@(_ :: rest) => leadsWith pat l || charSub pat rest

/-- Python `pat in s`. -/
def strContains (s pat : String) : Bool := charSub pat.data s.data

/-- Capitalize one word, lower-casing the rest (one word of Python
`str.title`). -/
def capWord (w : String) : String :=
  match w.data with
  | [] => ""
  | c :: cs => ⟨Char.toUpper c :: cs.map lowerChar⟩

/-- Split a char list on spaces. -/
def splitSpaces : List Char → List (List Char)
  | [] => [[]]
  | c :: cs =>
    let rest := splitSpaces cs
    if c == ' ' then [] :: rest
    else match rest with
      | [] => [[c]]
      | w :: ws => (c :: w) :: ws

/-- Python `s.title()` restricted to space-separated words; used only for
display labels. -/
def pyTitle (s : String) : String :=
  pyJoin " " ((splitSpaces s.data).map (fun w => capWord ⟨w⟩))

/-- Number of `?` parameter placeholders in a query fragment. -/
def countQ (s : String) : Nat := s.data.countP (· == '?')

/-! ### Decimal rounding (DuckDB `ROUND(x, 2)` / `ROUND(x, 4)`) -/

/-- `ROUND(q, 2)`: exact rounding of a rational to 2 decimal places. -/
def round2 (q : Rat) : Rat := ((Int.floor (q * 100 + 1/2) : Int) : Rat) / 100

/-- `ROUND(q, 4)`: exact rounding of a rational to 4 decimal places
(used only for the executive summary's fraud rate). -/
def round4 (q : Rat) : Rat := ((Int.floor (q * 10000 + 1/2) : Int) : Rat) / 10000

/-! ### Sorting (SQL `ORDER BY ... DESC`), kernel-reducible -/

/-- Insert into a list sorted by the boolean relation `le`. -/
def insertBy {α : Type} (le : α → α → Bool) (x : α) : List α → List α
  | [] => [x]
  | y :: ys => if le x y then x :: y :: ys else y :: insertBy le x ys

/-- Insertion sort by the boolean relation `le`; models an SQL
`ORDER BY` (the order among ties is unspecified in SQL). -/
def sortBy {α : Type} (le : α → α → Bool) : List α → List α
  | [] => []
  | x :: xs => insertBy le x (sortBy le xs)

/-! ### Data model (`schemas.py`) -/

/-- One row of the `transactions` table (the thirteen required columns;
`date_only` is derived from `timestamp` and equals it on the integer
day timeline used here). -/
structure Row where
  transaction_id : String := ""
  timestamp : Int := 0
  amount : Rat := 0
  payment_method : String := ""
  device : String := ""
  state : String := ""
  age_group : String := ""
  network : String := ""
  category : String := ""
  status : String := ""
  failure_code : Option String := none
  fraud_flag : Nat := 0
  review_flag : Nat := 0
deriving Repr, DecidableEq

/-- `PrimaryFilters`: each dimension is an optional exact-match value. -/
structure PrimaryFilters where
  device : Option String := none
  state : Option String := none
  age_group : Option String := none
  network : Option String := none
  category : Option String := none
  payment_method : Option String := none
  status : Option String := none
deriving Repr, DecidableEq

/-- The time-window dict consumed by `_apply_time_window`.  `from_date`
and `fromKey` model the two accepted spellings `"from_date"` and
`"from"` (likewise for `to`); date values are days on the integer
timeline. -/
structure TimeWindow where
  period : Option String := none
  from_date : Option Int := none
  fromKey : Option Int := none
  to_date : Option Int := none
  toKey : Option Int := none
deriving Repr, DecidableEq

/-- The part of `IntentSchema` read by the computability guard. -/
structure IntentSchema where
  metric : Option String := none
  primary_filters : PrimaryFilters := {}
deriving Repr, DecidableEq

/-- `CalculationDetail`: provenance of a computed number. -/
structure CalculationDetail where
  numerator : Option Rat := none
  denominator : Option Rat := none
  formula : Option String := none
  sample_size : Option Nat := none
deriving Repr, DecidableEq

/-- `NumberDetail`: one labeled numeric result. -/
structure NumberDetail where
  label : String := ""
  value : String := ""
  raw_value : Option Rat := none
  calculation : Option CalculationDetail := none
deriving Repr, DecidableEq

/-- `ChartType`. -/
inductive ChartType
  | line
  | bar
  | pie
  | sparkline
deriving Repr, DecidableEq

/-- `ChartDataPoint` (all `x` values produced by the service are
strings). -/
structure ChartDataPoint where
  x : String
  y : Rat
  label : Option String := none
deriving Repr, DecidableEq

/-- `ChartData`. -/
structure ChartData where
  type : ChartType := ChartType.bar
  title : Option String := none
  x_label : Option String := none
  y_label : Option String := none
  data : List ChartDataPoint := []
deriving Repr, DecidableEq

/-- `AnalysisResult`. -/
structure AnalysisResult where
  success : Bool := true
  metric : String
  numbers : List NumberDetail := []
  query_executed : String
  sample_rows : Option (List Row) := none
  chart_data : Option ChartData := none
  error : Option String := none
  execution_time_ms : Option Rat := none
deriving Repr, DecidableEq

/-! ### Predicate Builder (`_build_where_clause`) -/

/-- The `filter_map` dict of `_build_where_clause`, in source order. -/
def filterPairs (f : PrimaryFilters) : List (String × Option String) :=
  [("device", f.device), ("state", f.state), ("age_group", f.age_group),
   ("network", f.network), ("category", f.category),
   ("payment_method", f.payment_method), ("status", f.status)]

/-- The `(column, value)` pairs for the set fields, in source order
(the loop body `if val is not None`). -/
def filterConds (f : PrimaryFilters) : List (String × String) :=
  (filterPairs f).filterMap (fun p => p.2.map (fun v => (p.1, v)))

/-- `_build_where_clause`: the WHERE fragment (one `col = ?` per set
field, joined by `AND`, defaulting to `1=1`) and the bound parameters. -/
def build_where_clause (f : PrimaryFilters) : String × List String :=
  let conditions := (filterConds f).map (fun c => c.1 ++ " = ?")
  let params := (filterConds f).map (fun c => c.2)
  (if conditions.isEmpty then "1=1" else pyJoin " AND " conditions, params)

/-- Value of a categorical column of a row, by column name. -/
def colVal (c : String) (r : Row) : Option String :=
  if c = "device" then some r.device
  else if c = "state" then some r.state
  else if c = "age_group" then some r.age_group
  else if c = "network" then some r.network
  else if c = "category" then some r.category
  else if c = "payment_method" then some r.payment_method
  else if c = "status" then some r.status
  else none

/-- Semantics of one bound equality condition over a row. -/
def condHolds (r : Row) (c : String × String) : Bool :=
  colVal c.1 r == some c.2

/-- Semantics of the built predicate: the conjunction of the equality
conditions (vacuously true when no field is set, matching `1=1`). -/
def rowMatches (f : PrimaryFilters) (r : Row) : Bool :=
  (filterConds f).all (condHolds r)

/-! ### Time Window Resolver (`_apply_time_window`) -/

/-- Days subtracted for a relative period tag (`last_7_days`,
`last_30_days`, `last_90_days`; any other tag defaults to 30). -/
def periodDays (p : String) : Int :=
  if p = "last_7_days" then 7
  else if p = "last_30_days" then 30
  else if p = "last_90_days" then 90
  else 30

/-- `_apply_time_window`: extends the WHERE fragment with timestamp
bounds.  Mirrors the source: a truthy relative period appends
`timestamp >= now - N days`; then explicit from/to dates (under either
dict key) append independent bounds; the returned parameter list is
empty (the source interpolates the date literals). -/
def apply_time_window (baseWhere : String) (tw : Option TimeWindow) (now : Int) :
    String × List String :=
  match tw with
  | none => (baseWhere, [])
  | some t =>
    let w1 := match t.period with
      | some p =>
        if p = "" then baseWhere
        else baseWhere ++ " AND timestamp >= \x27" ++ toString (now - periodDays p) ++ "\x27"
      | none => baseWhere
    let w2 := match t.from_date.orElse (fun _ => t.fromKey) with
      | some d => w1 ++ " AND timestamp >= \x27" ++ toString d ++ "\x27"
      | none => w1
    let w3 := match t.to_date.orElse (fun _ => t.toKey) with
      | some d => w2 ++ " AND timestamp <= \x27" ++ toString d ++ "\x27"
      | none => w2
    (w3, [])

/-- Comparison direction of a timestamp bound. -/
inductive Cmp
  | ge
  | le
deriving Repr, DecidableEq

/-- One structured timestamp bound appended by the resolver. -/
structure TimeClause where
  col : String
  cmp : Cmp
  bound : Int
deriving Repr, DecidableEq

/-- The structured reading of the bounds `_apply_time_window` appends,
in the order it appends them. -/
def timeClauses (tw : Option TimeWindow) (now : Int) : List TimeClause :=
  match tw with
  | none => []
  | some t =>
    (match t.period with
     | some p => if p = "" then [] else [⟨"timestamp", Cmp.ge, now - periodDays p⟩]
     | none => []) ++
    (match t.from_date.orElse (fun _ => t.fromKey) with
     | some d => [⟨"timestamp", Cmp.ge, d⟩]
     | none => []) ++
    (match t.to_date.orElse (fun _ => t.toKey) with
     | some d => [⟨"timestamp", Cmp.le, d⟩]
     | none => [])

/-- Query-text rendering of one timestamp bound. -/
def renderTimeClause (c : TimeClause) : String :=
  c.col ++ (match c.cmp with
    | Cmp.ge => " >= \x27"
    | Cmp.le => " <= \x27") ++ toString c.bound ++ "\x27"

/-- Append rendered bounds to a WHERE fragment. -/
def appendClauses (w : String) (cs : List TimeClause) : String :=
  cs.foldl (fun s c => s ++ " AND " ++ renderTimeClause c) w

/-- Semantics of one timestamp bound over a row (the bound compares the
raw `timestamp` column). -/
def clauseHolds (r : Row) (c : TimeClause) : Bool :=
  match c.cmp with
  | Cmp.ge => decide (c.bound ≤ r.timestamp)
  | Cmp.le => decide (r.timestamp ≤ c.bound)

/-- Semantics of the resolved time window over a row. -/
def rowInWindow (tw : Option TimeWindow) (now : Int) (r : Row) : Bool :=
  (timeClauses tw now).all (clauseHolds r)

/-- Combined semantics of filters plus time window: the predicate the
composed WHERE clause denotes over a row. -/
def fullPred (f : PrimaryFilters) (tw : Option TimeWindow) (now : Int) (r : Row) : Bool :=
  rowMatches f r && rowInWindow tw now r

/-! ### Computability Guard (`is_metric_computable`) -/

/-- The guard's supported metric names. -/
def supportedMetrics : List String :=
  ["failure_rate", "volume", "count", "avg_amount",
   "avg_transaction_amount", "total_amount", "failure_codes",
   "fraud_rate", "review_rate", "executive_summary"]

/-- The guard's device vocabulary (lower-cased). -/
def validDevices : List String := ["android", "ios", "web"]

/-- The guard's network vocabulary (lower-cased). -/
def validNetworks : List String := ["4g", "5g", "wifi", "3g"]

/-- Age-group vocabulary: defined in the source but never checked. -/
def validAgeGroups : List String := ["<25", "25-34", "35-44", "45+"]

/-- Category vocabulary: defined in the source but never checked. -/
def validCategories : List String := ["food", "entertainment", "travel", "utilities", "others"]

/-- `is_metric_computable`: `(can_compute, reason_if_not)`.  Mirrors the
source's checks in order: metric name (when truthy) against
`supportedMetrics` after lower-casing, then device and network filter
values (when truthy) against their vocabularies after lower-casing.
No other filter field is checked. -/
def is_metric_computable (intent : IntentSchema) : Bool × String :=
  let metricBad := match intent.metric with
    | some m => m ≠ "" && !(supportedMetrics.contains (pyLower m))
    | none => false
  if metricBad then
    (false, "Metric \x27" ++ (intent.metric.getD "") ++
      "\x27 is not supported. Available metrics: " ++ pyJoin ", " supportedMetrics)
  else
    let f := intent.primary_filters
    let deviceBad := match f.device with
      | some d => d ≠ "" && !(validDevices.contains (pyLower d))
      | none => false
    if deviceBad then
      (false, "Unknown device type: " ++ (f.device.getD "") ++
        ". Valid options: " ++ pyJoin ", " validDevices)
    else
      let networkBad := match f.network with
        | some n => n ≠ "" && !(validNetworks.contains (pyLower n))
        | none => false
      if networkBad then
        (false, "Unknown network type: " ++ (f.network.getD "") ++
          ". Valid options: " ++ pyJoin ", " validNetworks)
      else (true, "")

/-! ### Metric Expression Registry -/

/-- The aggregation expressions appearing in the operations' metric
expression maps. -/
inductive MetricExpr
  | countStar
  | avgAmount
  | totalAmount
  | failureRate
deriving Repr, DecidableEq

/-- Query-text rendering of an aggregation expression. -/
def renderMetricExpr : MetricExpr → String
  | MetricExpr.countStar => "COUNT(*)"
  | MetricExpr.avgAmount => "ROUND(AVG(amount), 2)"
  | MetricExpr.totalAmount => "ROUND(SUM(amount), 2)"
  | MetricExpr.failureRate =>
    "ROUND(100.0 * SUM(CASE WHEN status = \x27Failed\x27 THEN 1 ELSE 0 END) / NULLIF(COUNT(*), 0), 2)"

/-- SQL semantics of an aggregation expression over a set of rows
(`none` models SQL `NULL`: `AVG`/`SUM` of no rows, or the `NULLIF`
guard of the failure-rate ratio). -/
def evalMetricExpr : MetricExpr → List Row → Option Rat
  | MetricExpr.countStar, rows => some (rows.length : Rat)
  | MetricExpr.avgAmount, rows =>
    if rows.length = 0 then none
    else some (round2 ((rows.map (fun r => r.amount)).sum / (rows.length : Rat)))
  | MetricExpr.totalAmount, rows =>
    if rows.length = 0 then none
    else some (round2 (rows.map (fun r => r.amount)).sum)
  | MetricExpr.failureRate, rows =>
    if rows.length = 0 then none
    else some (round2 (100 * ((rows.filter (fun r => r.status == "Failed")).length : Rat) /
      (rows.length : Rat)))

/-- `metric_expr_map` of `aggregate`, in source order. -/
def agg_metric_expr_map : List (String × MetricExpr) :=
  [("volume", MetricExpr.countStar), ("count", MetricExpr.countStar),
   ("avg_amount", MetricExpr.avgAmount), ("total_amount", MetricExpr.totalAmount),
   ("avg_transaction_amount", MetricExpr.avgAmount),
   ("failure_rate", MetricExpr.failureRate)]

/-- `metric_expr_map` of `compare_segments`, in source order (note: it
has only four entries). -/
def compare_metric_expr_map : List (String × MetricExpr) :=
  [("failure_rate", MetricExpr.failureRate), ("avg_amount", MetricExpr.avgAmount),
   ("volume", MetricExpr.countStar), ("total_amount", MetricExpr.totalAmount)]

/-- `metric_expr_map` of `time_series`, in source order. -/
def ts_metric_expr_map : List (String × MetricExpr) :=
  [("volume", MetricExpr.countStar), ("count", MetricExpr.countStar),
   ("avg_amount", MetricExpr.avgAmount), ("total_amount", MetricExpr.totalAmount),
   ("failure_rate", MetricExpr.failureRate)]

/-- `metric_expr_map.get(metric.lower(), "COUNT(*)")` of `aggregate`. -/
def aggMetricExpr (metric : String) : MetricExpr :=
  (agg_metric_expr_map.lookup (pyLower metric)).getD MetricExpr.countStar

/-- The same lookup-with-default in `compare_segments`. -/
def compareMetricExpr (metric : String) : MetricExpr :=
  (compare_metric_expr_map.lookup (pyLower metric)).getD MetricExpr.countStar

/-- The same lookup-with-default in `time_series`. -/
def tsMetricExpr (metric : String) : MetricExpr :=
  (ts_metric_expr_map.lookup (pyLower metric)).getD MetricExpr.countStar

/-! ### Display formatting (`_format_metric_value` and f-strings)

Decimal digit rendering and thousands separators are abstracted by
`toString`; the claims proved below depend on which numeric value is
rendered, not on its digit grouping. -/

/-- Stand-in for Python float rendering. -/
def ratStr (q : Rat) : String := toString q

/-- Stand-in for Python integer rendering with separators. -/
def natStr (n : Nat) : String := toString n

/-- Stand-in for Python `f"…:+.Nf"` sign-carrying rendering. -/
def fmtSigned (q : Rat) : String := (if 0 ≤ q then "+" else "") ++ toString q

/-- Python `str(x)` on an optional value (`str(None) = "None"`). -/
def optStr : Option Rat → String
  | none => "None"
  | some q => ratStr q

/-- `_format_metric_value`: branches by substring sniffing on the metric
name; `none` models a pandas NaN and renders as `N/A`. -/
def format_metric_value (metric : String) (v : Option Rat) : String :=
  match v with
  | none => "N/A"
  | some q =>
    let m := pyLower metric
    if strContains m "rate" || strContains m "percentage" then ratStr q ++ "%"
    else if strContains m "amount" || strContains m "volume" then "₹" ++ ratStr q
    else if strContains m "count" || m == "volume" then ratStr q
    else ratStr q

/-- `metric.replace("_", " ").title()`. -/
def metricTitle (m : String) : String := pyTitle (m.replace "_" " ")

/-! ### Operation: `compute_failure_rate` -/

/-- The single row fetched by the failure-rate query:
`(COUNT(*), SUM(CASE …), ROUND(…/NULLIF(COUNT(*),0), 2))`. -/
structure FrFetchRow where
  total : Nat
  failed : Option Nat
  rate : Option Rat
deriving Repr, DecidableEq

/-- The failure-rate query text (modulo the source's indentation, which
`query.strip()` partially removes). -/
def frQuery (w : String) : String :=
  "SELECT COUNT(*) as total_transactions, " ++
  "SUM(CASE WHEN status = \x27Failed\x27 THEN 1 ELSE 0 END) as failed_transactions, " ++
  "ROUND(100.0 * SUM(CASE WHEN status = \x27Failed\x27 THEN 1 ELSE 0 END) / NULLIF(COUNT(*), 0), 2) as failure_rate_pct " ++
  "FROM transactions WHERE " ++ w

/-- `compute_failure_rate`.  `execMain`/`execSample` are the outcomes of
the two `conn.execute` calls (`.error` models a raised exception, caught
by the source's `try/except`). -/
def compute_failure_rate (conn : Option Unit) (filters : Option PrimaryFilters)
    (tw : Option TimeWindow) (now : Int)
    (execMain : Except String FrFetchRow)
    (execSample : Except String (List Row)) : AnalysisResult :=
  match conn with
  | none =>
    { success := false, metric := "failure_rate", query_executed := "N/A",
      error := some "Dataset not loaded" }
  | some _ =>
    let f := filters.getD {}
    let w0 := (build_where_clause f).1
    let w := (apply_time_window w0 tw now).1
    let query := frQuery w
    match execMain with
    | Except.error e =>
      { success := false, metric := "failure_rate", query_executed := query,
        error := some e }
    | Except.ok r =>
      match execSample with
      | Except.error e =>
        { success := false, metric := "failure_rate", query_executed := query,
          error := some e }
      | Except.ok samples =>
        let total := r.total
        let failed := r.failed.getD 0
        let rate := r.rate.getD 0
        { success := true, metric := "failure_rate",
          numbers :=
            [{ label := "Failure Rate", value := ratStr rate ++ "%",
               raw_value := some rate,
               calculation := some
                 { numerator := some (failed : Rat),
                   denominator := some (total : Rat),
                   formula := some "(failed_transactions / total_transactions) * 100" } },
             { label := "Total Transactions", value := natStr total,
               raw_value := some (total : Rat) },
             { label := "Failed Transactions", value := natStr failed,
               raw_value := some (failed : Rat) }],
          query_executed := query, sample_rows := some samples,
          execution_time_ms := some 0 }

/-- Embedded SQL semantics of the failure-rate query over the table. -/
def frFetch (rows : List Row) (pred : Row → Bool) : FrFetchRow :=
  let m := rows.filter pred
  let total := m.length
  let failed := (m.filter (fun r => r.status == "Failed")).length
  { total := total,
    failed := if total = 0 then none else some failed,
    rate := if total = 0 then none
            else some (round2 (100 * (failed : Rat) / (total : Rat))) }

/-- Embedded SQL semantics of the sample-rows query (failed rows,
`LIMIT 5`). -/
def frSample (rows : List Row) (pred : Row → Bool) : List Row :=
  ((rows.filter pred).filter (fun r => r.status == "Failed")).take 5

/-- `compute_failure_rate` run against the embedded table semantics. -/
def fr_honest (rows : List Row) (f : PrimaryFilters) (tw : Option TimeWindow)
    (now : Int) : AnalysisResult :=
  compute_failure_rate (some ()) (some f) tw now
    (Except.ok (frFetch rows (fullPred f tw now)))
    (Except.ok (frSample rows (fullPred f tw now)))

/-! ### Operation: `aggregate` -/

/-- One data-frame row of the aggregation query: the group-key column
values (empty when ungrouped) and the metric value (`none` = NULL). -/
structure AggRow where
  keyVals : List String
  value : Option Rat
deriving Repr, DecidableEq

/-- The aggregation query text. -/
def aggQuery (metric : String) (mexpr : MetricExpr) (bs : List String) (w : String) : String :=
  if bs.isEmpty then
    "SELECT " ++ renderMetricExpr mexpr ++ " as " ++ metric ++
    " FROM transactions WHERE " ++ w
  else
    "SELECT " ++ pyJoin ", " bs ++ ", " ++ renderMetricExpr mexpr ++ " as " ++ metric ++
    " FROM transactions WHERE " ++ w ++ " GROUP BY " ++ pyJoin ", " bs ++
    " ORDER BY " ++ metric ++ " DESC LIMIT 20"

/-- `aggregate`.  `by_` models the `by` argument (`[]` and `None` are
both falsy in the source's `if by:`). -/
def aggregate (conn : Option Unit) (metric : String) (by_ : Option (List String))
    (filters : Option PrimaryFilters) (tw : Option TimeWindow) (now : Int)
    (exec : Except String (List AggRow)) : AnalysisResult :=
  match conn with
  | none =>
    { success := false, metric := metric, query_executed := "N/A",
      error := some "Dataset not loaded" }
  | some _ =>
    let f := filters.getD {}
    let w0 := (build_where_clause f).1
    let w := (apply_time_window w0 tw now).1
    let bs := by_.getD []
    let mexpr := aggMetricExpr metric
    let query := aggQuery metric mexpr bs w
    match exec with
    | Except.error e =>
      { success := false, metric := metric, query_executed := query, error := some e }
    | Except.ok df =>
      if bs.isEmpty then
        let value : Option Rat := match df.head? with
          | some r => r.value
          | none => some 0
        { success := true, metric := metric,
          numbers := [{ label := metricTitle metric,
                        value := format_metric_value metric value,
                        raw_value := some (value.getD 0) }],
          query_executed := query, execution_time_ms := some 0 }
      else
        { success := true, metric := metric,
          numbers := df.map (fun r =>
            { label := pyJoin " - " r.keyVals,
              value := format_metric_value metric r.value,
              raw_value := some (r.value.getD 0) }),
          query_executed := query,
          chart_data := some
            { type := ChartType.bar,
              title := some (metricTitle metric ++ " by " ++ pyJoin ", " bs),
              data := df.map (fun r =>
                { x := pyJoin " - " r.keyVals, y := r.value.getD 0 }) },
          execution_time_ms := some 0 }

/-- Group-key column values of a row. -/
def groupKeyVals (bs : List String) (r : Row) : List String :=
  bs.map (fun c => (colVal c r).getD "")

/-- Embedded SQL semantics of the aggregation query (GROUP BY the key
columns, ORDER BY the metric value descending, LIMIT 20). -/
def aggEval (rows : List Row) (pred : Row → Bool) (bs : List String)
    (me : MetricExpr) : List AggRow :=
  let m := rows.filter pred
  if bs.isEmpty then
    [{ keyVals := [], value := evalMetricExpr me m }]
  else
    let keys := (m.map (groupKeyVals bs)).dedup
    (sortBy (fun a b => decide ((b.value.getD 0) ≤ (a.value.getD 0)))
      (keys.map (fun k =>
        { keyVals := k,
          value := evalMetricExpr me (m.filter (fun r => groupKeyVals bs r == k)) }))).take 20

/-- `aggregate` run against the embedded table semantics. -/
def agg_honest (rows : List Row) (metric : String) (by_ : Option (List String))
    (f : PrimaryFilters) (tw : Option TimeWindow) (now : Int) : AnalysisResult :=
  aggregate (some ()) metric by_ (some f) tw now
    (Except.ok (aggEval rows (fullPred f tw now) (by_.getD []) (aggMetricExpr metric)))

/-! ### Operation: `compare_segments` -/

/-- One data-frame row of the comparison query (one per segment). -/
structure SegRow where
  value : Option Rat
  sample_size : Nat
deriving Repr, DecidableEq

/-- The interpolated segment conditions `k = 'v' AND …` (the source
splices segment values directly into the query text). -/
def segCondsStr (seg : List (String × String)) : String :=
  pyJoin " AND " (seg.map (fun kv => kv.1 ++ " = \x27" ++ kv.2 ++ "\x27"))

/-- The display label `k: v & …` of a segment. -/
def segLabel (seg : List (String × String)) : String :=
  pyJoin " & " (seg.map (fun kv => kv.1 ++ ": " ++ kv.2))

/-- The comparison query text (a UNION ALL of the two segment
aggregates, in segment order). -/
def compareQuery (metric : String) (mexpr : MetricExpr) (w condsA condsB : String) : String :=
  "SELECT \x27Segment A\x27 as segment, " ++ renderMetricExpr mexpr ++ " as " ++ metric ++
  ", COUNT(*) as sample_size FROM transactions WHERE " ++ w ++ " AND " ++ condsA ++
  " UNION ALL SELECT \x27Segment B\x27 as segment, " ++ renderMetricExpr mexpr ++ " as " ++ metric ++
  ", COUNT(*) as sample_size FROM transactions WHERE " ++ w ++ " AND " ++ condsB

/-- `pct_diff = (diff / val_b * 100) if val_b != 0 else 0`. -/
def pctDiffOf (diff val_b : Rat) : Rat := if val_b ≠ 0 then diff / val_b * 100 else 0

/-- `compare_segments`.  A `none` data-frame value models an SQL NULL;
the source's `float(...)` would turn it into a NaN, which the claims
proved here never rely on, so it is defaulted to 0 at the read site. -/
def compare_segments (conn : Option Unit) (segment_a segment_b : List (String × String))
    (metric : String) (filters : Option PrimaryFilters) (tw : Option TimeWindow)
    (now : Int) (exec : Except String (List SegRow)) : AnalysisResult :=
  match conn with
  | none =>
    { success := false, metric := metric, query_executed := "N/A",
      error := some "Dataset not loaded" }
  | some _ =>
    let f := filters.getD {}
    let w := (apply_time_window (build_where_clause f).1 tw now).1
    let mexpr := compareMetricExpr metric
    let query := compareQuery metric mexpr w (segCondsStr segment_a) (segCondsStr segment_b)
    match exec with
    | Except.error e =>
      { success := false, metric := metric, query_executed := query, error := some e }
    | Except.ok df =>
      let val_a : Rat := match df.head? with
        | some r => r.value.getD 0
        | none => 0
      let val_b : Rat := match df[1]? with
        | some r => r.value.getD 0
        | none => 0
      let size_a : Nat := match df.head? with
        | some r => r.sample_size
        | none => 0
      let size_b : Nat := match df[1]? with
        | some r => r.sample_size
        | none => 0
      let diff := val_a - val_b
      let pct_diff := pctDiffOf diff val_b
      { success := true, metric := metric,
        numbers :=
          [{ label := metricTitle metric ++ " (" ++ segLabel segment_a ++ ")",
             value := format_metric_value metric (some val_a),
             raw_value := some val_a,
             calculation := some { sample_size := some size_a } },
           { label := metricTitle metric ++ " (" ++ segLabel segment_b ++ ")",
             value := format_metric_value metric (some val_b),
             raw_value := some val_b,
             calculation := some { sample_size := some size_b } },
           { label := "Difference",
             value := fmtSigned diff ++ " (" ++ fmtSigned pct_diff ++ "%)",
             raw_value := some diff }],
        query_executed := query,
        chart_data := some
          { type := ChartType.bar,
            title := some (metricTitle metric ++ " Comparison"),
            data := [{ x := segLabel segment_a, y := val_a },
                     { x := segLabel segment_b, y := val_b }] },
        execution_time_ms := some 0 }

/-- Embedded SQL semantics of one side of the comparison query. -/
def segEval (rows : List Row) (pred : Row → Bool) (seg : List (String × String))
    (me : MetricExpr) : SegRow :=
  let s := (rows.filter pred).filter
    (fun r => seg.all (fun kv => colVal kv.1 r == some kv.2))
  { value := evalMetricExpr me s, sample_size := s.length }

/-- `compare_segments` run against the embedded table semantics (the
UNION ALL produces the segment-A row first, as the source assumes). -/
def compare_honest (rows : List Row) (segment_a segment_b : List (String × String))
    (metric : String) (f : PrimaryFilters) (tw : Option TimeWindow) (now : Int) :
    AnalysisResult :=
  compare_segments (some ()) segment_a segment_b metric (some f) tw now
    (Except.ok [segEval rows (fullPred f tw now) segment_a (compareMetricExpr metric),
                segEval rows (fullPred f tw now) segment_b (compareMetricExpr metric)])

/-! ### Operation: `time_series` -/

/-- One data-frame row of the time-series query: the (stringified) time
bucket, the optional secondary group value, and the metric value. -/
structure TsRow where
  time_period : String
  groupVal : Option String
  value : Option Rat
deriving Repr, DecidableEq

/-- The time-truncation expression of the time-series query. -/
def tsTimeExpr (period time_col : String) : String :=
  if period = "week" then "DATE_TRUNC(\x27week\x27, " ++ time_col ++ ")"
  else if period = "month" then "DATE_TRUNC(\x27month\x27, " ++ time_col ++ ")"
  else time_col

/-- The time-series query text. -/
def tsQuery (metric : String) (mexpr : MetricExpr) (texpr : String)
    (gb : Option String) (w : String) : String :=
  match gb with
  | some g =>
    "SELECT " ++ texpr ++ " as time_period, " ++ g ++ ", " ++ renderMetricExpr mexpr ++
    " as " ++ metric ++ " FROM transactions WHERE " ++ w ++ " GROUP BY " ++ texpr ++
    ", " ++ g ++ " ORDER BY time_period, " ++ g
  | none =>
    "SELECT " ++ texpr ++ " as time_period, " ++ renderMetricExpr mexpr ++
    " as " ++ metric ++ " FROM transactions WHERE " ++ w ++ " GROUP BY " ++ texpr ++
    " ORDER BY time_period"

/-- `time_series`.  Note the source caps `numbers[:20]` but passes the
full `data_points` list to the chart. -/
def time_series (conn : Option Unit) (metric : String) (time_col period : String)
    (filters : Option PrimaryFilters) (tw : Option TimeWindow) (now : Int)
    (group_by : Option String) (exec : Except String (List TsRow)) : AnalysisResult :=
  match conn with
  | none =>
    { success := false, metric := metric, query_executed := "N/A",
      error := some "Dataset not loaded" }
  | some _ =>
    let f := filters.getD {}
    let w0 := (build_where_clause f).1
    let w := (apply_time_window w0 tw now).1
    let texpr := tsTimeExpr period time_col
    let mexpr := tsMetricExpr metric
    let query := tsQuery metric mexpr texpr group_by w
    match exec with
    | Except.error e =>
      { success := false, metric := metric, query_executed := query, error := some e }
    | Except.ok df =>
      let numbers := df.map (fun r =>
        { label := match group_by with
            | some _ => r.time_period ++ " (" ++ r.groupVal.getD "None" ++ ")"
            | none => r.time_period,
          value := format_metric_value metric (some (r.value.getD 0)),
          raw_value := some (r.value.getD 0) : NumberDetail })
      let data_points := df.map (fun r =>
        { x := r.time_period, y := r.value.getD 0,
          label := match group_by with
            | some _ => some (r.groupVal.getD "None")
            | none => none : ChartDataPoint })
      { success := true, metric := metric,
        numbers := numbers.take 20,
        query_executed := query,
        chart_data := some
          { type := ChartType.line,
            title := some (metricTitle metric ++ " over Time"),
            x_label := some "Date",
            y_label := some (metricTitle metric),
            data := data_points },
        execution_time_ms := some 0 }

/-- Day bucket of a row on the integer timeline (`date_only` equals the
timestamp at day granularity; week/month truncation is not needed by
the claims and is instantiated with day bucketing). -/
def dayBucket (r : Row) : String := toString r.timestamp

/-- Embedded SQL semantics of the time-series query: one row per
distinct (bucket, group) pair, with the metric evaluated over the rows
of that pair.  Bucket order is left as first occurrence; no proved
claim depends on the `ORDER BY`. -/
def tsEval (rows : List Row) (pred : Row → Bool) (tb : Row → String)
    (gbCol : Option String) (me : MetricExpr) : List TsRow :=
  let m := rows.filter pred
  let keys := (m.map (fun r => (tb r, gbCol.map (fun c => (colVal c r).getD "")))).dedup
  keys.map (fun k =>
    { time_period := k.1, groupVal := k.2,
      value := evalMetricExpr me (m.filter (fun r =>
        tb r == k.1 && gbCol.map (fun c => (colVal c r).getD "") == k.2)) })

/-- `time_series` run against the embedded table semantics with day
bucketing. -/
def ts_honest (rows : List Row) (metric : String) (f : PrimaryFilters)
    (tw : Option TimeWindow) (now : Int) (group_by : Option String) : AnalysisResult :=
  time_series (some ()) metric "date_only" "day" (some f) tw now group_by
    (Except.ok (tsEval rows (fullPred f tw now) dayBucket group_by (tsMetricExpr metric)))

/-! ### Operation: `get_top_failure_codes` -/

/-- One data-frame row of the failure-code breakdown query. -/
structure CodeRow where
  failure_code : String
  count : Nat
  percentage : Rat
deriving Repr, DecidableEq

/-- The failure-code breakdown query text. -/
def topQuery (w : String) (limit : Nat) : String :=
  "SELECT COALESCE(failure_code, \x27Unknown\x27) as failure_code, COUNT(*) as count, " ++
  "ROUND(100.0 * COUNT(*) / SUM(COUNT(*)) OVER (), 2) as percentage " ++
  "FROM transactions WHERE " ++ w ++ " AND status = \x27Failed\x27 " ++
  "GROUP BY failure_code ORDER BY count DESC LIMIT " ++ toString limit

/-- `get_top_failure_codes` (the `limit` argument defaults to 10 at the
call sites). -/
def get_top_failure_codes (conn : Option Unit) (filters : Option PrimaryFilters)
    (tw : Option TimeWindow) (now : Int) (limit : Nat)
    (exec : Except String (List CodeRow)) : AnalysisResult :=
  match conn with
  | none =>
    { success := false, metric := "failure_codes", query_executed := "N/A",
      error := some "Dataset not loaded" }
  | some _ =>
    let f := filters.getD {}
    let w0 := (build_where_clause f).1
    let w := (apply_time_window w0 tw now).1
    let query := topQuery w limit
    match exec with
    | Except.error e =>
      { success := false, metric := "failure_codes", query_executed := query,
        error := some e }
    | Except.ok df =>
      { success := true, metric := "failure_codes",
        numbers := df.map (fun r =>
          { label := r.failure_code,
            value := natStr r.count ++ " (" ++ ratStr r.percentage ++ "%)",
            raw_value := some (r.count : Rat) }),
        query_executed := query,
        chart_data := some
          { type := ChartType.bar, title := some "Top Failure Codes",
            data := df.map (fun r => { x := r.failure_code, y := (r.count : Rat) }) },
        execution_time_ms := some 0 }

/-- Embedded SQL semantics of the breakdown query: group the failed
rows by `failure_code` (NULL labeled `Unknown`), with each group's
count and its rounded share of all failed rows, ordered by count
descending, `LIMIT limit`. -/
def topCodesEval (rows : List Row) (pred : Row → Bool) (limit : Nat) : List CodeRow :=
  let failed := (rows.filter pred).filter (fun r => r.status == "Failed")
  let total := failed.length
  let codes := (failed.map (fun r => r.failure_code)).dedup
  let grouped := codes.map (fun c =>
    { failure_code := c.getD "Unknown",
      count := (failed.filter (fun r => r.failure_code == c)).length,
      percentage := round2 (100 * ((failed.filter (fun r => r.failure_code == c)).length : Rat) /
        (total : Rat)) })
  (sortBy (fun a b => decide (b.count ≤ a.count)) grouped).take limit

/-- `get_top_failure_codes` run against the embedded table semantics. -/
def top_honest (rows : List Row) (f : PrimaryFilters) (tw : Option TimeWindow)
    (now : Int) (limit : Nat) : AnalysisResult :=
  get_top_failure_codes (some ()) (some f) tw now limit
    (Except.ok (topCodesEval rows (fullPred f tw now) limit))

/-! ### Operation: `get_executive_summary` -/

/-- The single row fetched by the executive-summary query. -/
structure SummaryRow where
  total_transactions : Nat
  total_volume : Option Rat
  avg_transaction_amount : Option Rat
  failure_rate : Option Rat
  fraud_rate : Option Rat
  review_rate : Option Rat
deriving Repr, DecidableEq

/-- The executive-summary query text. -/
def summaryQuery (w : String) : String :=
  "SELECT COUNT(*) as total_transactions, ROUND(SUM(amount), 2) as total_volume, " ++
  "ROUND(AVG(amount), 2) as avg_transaction_amount, " ++
  "ROUND(100.0 * SUM(CASE WHEN status = \x27Failed\x27 THEN 1 ELSE 0 END) / NULLIF(COUNT(*), 0), 2) as failure_rate, " ++
  "ROUND(100.0 * SUM(CASE WHEN fraud_flag = 1 THEN 1 ELSE 0 END) / NULLIF(COUNT(*), 0), 4) as fraud_rate, " ++
  "ROUND(100.0 * SUM(CASE WHEN review_flag = 1 THEN 1 ELSE 0 END) / NULLIF(COUNT(*), 0), 2) as review_rate " ++
  "FROM transactions WHERE " ++ w

/-- Python `f"₹…:,.2f"` applied to an optional value: formatting `None`
raises a `TypeError` (modelled as `.error`), which the operation's
`try/except` catches. -/
def fmtCurrencyReq : Option Rat → Except String String
  | none => Except.error "unsupported format string passed to NoneType.__format__"
  | some q => Except.ok ("₹" ++ ratStr q)

/-- `get_executive_summary`. -/
def get_executive_summary (conn : Option Unit) (tw : Option TimeWindow) (now : Int)
    (exec : Except String SummaryRow) : AnalysisResult :=
  match conn with
  | none =>
    { success := false, metric := "executive_summary", query_executed := "N/A",
      error := some "Dataset not loaded" }
  | some _ =>
    let w := (apply_time_window "1=1" tw now).1
    let query := summaryQuery w
    match exec with
    | Except.error e =>
      { success := false, metric := "executive_summary", query_executed := query,
        error := some e }
    | Except.ok r =>
      match fmtCurrencyReq r.total_volume with
      | Except.error e =>
        { success := false, metric := "executive_summary", query_executed := query,
          error := some e }
      | Except.ok volStr =>
        match fmtCurrencyReq r.avg_transaction_amount with
        | Except.error e =>
          { success := false, metric := "executive_summary", query_executed := query,
            error := some e }
        | Except.ok avgStr =>
          { success := true, metric := "executive_summary",
            numbers :=
              [{ label := "Total Transactions", value := natStr r.total_transactions,
                 raw_value := some (r.total_transactions : Rat) },
               { label := "Total Volume", value := volStr, raw_value := r.total_volume },
               { label := "Average Transaction", value := avgStr,
                 raw_value := r.avg_transaction_amount },
               { label := "Failure Rate", value := optStr r.failure_rate ++ "%",
                 raw_value := r.failure_rate },
               { label := "Fraud Rate", value := optStr r.fraud_rate ++ "%",
                 raw_value := r.fraud_rate },
               { label := "Review Rate", value := optStr r.review_rate ++ "%",
                 raw_value := r.review_rate }],
            query_executed := query, execution_time_ms := some 0 }

/-- Embedded SQL semantics of the executive-summary query. -/
def summaryEval (rows : List Row) (pred : Row → Bool) : SummaryRow :=
  let m := rows.filter pred
  let n := m.length
  { total_transactions := n,
    total_volume := if n = 0 then none else some (round2 (m.map (fun r => r.amount)).sum),
    avg_transaction_amount :=
      if n = 0 then none
      else some (round2 ((m.map (fun r => r.amount)).sum / (n : Rat))),
    failure_rate :=
      if n = 0 then none
      else some (round2 (100 * ((m.filter (fun r => r.status == "Failed")).length : Rat) / (n : Rat))),
    fraud_rate :=
      if n = 0 then none
      else some (round4 (100 * ((m.filter (fun r => r.fraud_flag == 1)).length : Rat) / (n : Rat))),
    review_rate :=
      if n = 0 then none
      else some (round2 (100 * ((m.filter (fun r => r.review_flag == 1)).length : Rat) / (n : Rat))) }

/-! ### Observation helpers and well-formedness -/

/-- First `NumberDetail` of a result (defaulted when absent). -/
def headNumber (r : AnalysisResult) : NumberDetail := r.numbers.headD {}

/-- Calculation provenance of the first number. -/
def headCalc (r : AnalysisResult) : CalculationDetail := (headNumber r).calculation.getD {}

/-- Raw value of the first number (defaulted to 0 when absent). -/
def headRaw (r : AnalysisResult) : Rat := (headNumber r).raw_value.getD 0

/-- The error-boundary contract of every operation: on failure the
error field is populated and `numbers` is empty, and the executed query
text is populated even on failure. -/
def resultWellFormed (r : AnalysisResult) : Prop :=
  (r.success = false → r.error.isSome ∧ r.numbers = []) ∧ r.query_executed ≠ ""

/-- Acceptance of one optional guarded value against a lower-cased
vocabulary, as the guard checks it (unset and empty values pass). -/
def vocabOk (vocab : List String) : Option String → Bool
  | none => true
  | some v => v == "" || vocab.contains (pyLower v)

/-! ### Concrete tables used to instantiate theorems -/

/-- 100 rows, 10 of them failed (end-to-end scenario A). -/
def rows100 : List Row :=
  List.replicate 10 { status := "Failed" } ++ List.replicate 90 { status := "Success" }

/-- 21 rows on 21 distinct days. -/
def rows21 : List Row :=
  (List.range 21).map (fun i => { timestamp := (i : Int), status := "Success" })

/-- 6 failed rows with 6 distinct failure codes. -/
def rows6 : List Row :=
  (List.range 6).map (fun i => { status := "Failed", failure_code := some ("C" ++ natStr i) })

/-- 3 rows, none fraud-flagged. -/
def rows3 : List Row :=
  List.replicate 3 { status := "Success", fraud_flag := 0 }

/-- A small two-segment table: 3 Android rows and 2 iOS rows. -/
def rowsSeg : List Row :=
  List.replicate 3 { device := "Android", status := "Success" } ++
  List.replicate 2 { device := "iOS", status := "Success" }

/-! ## Helper lemmas -/

theorem round2_nonneg (q : Rat) (h : 0 ≤ q) : 0 ≤ round2 q := by
  have h2 : (0 : ℤ) ≤ ⌊q * 100 + 1/2⌋ := by
    rw [Int.floor_nonneg]
    linarith
  have h3 : (0 : ℚ) ≤ (⌊q * 100 + 1/2⌋ : ℚ) := by exact_mod_cast h2
  simp only [round2]
  positivity

theorem round2_le_100 (q : Rat) (h : q ≤ 100) : round2 q ≤ 100 := by
  have h2 : ⌊q * 100 + 1/2⌋ < 10001 := by
    rw [Int.floor_lt]
    push_cast
    linarith
  have h3 : (⌊q * 100 + 1/2⌋ : ℚ) ≤ 10000 := by
    exact_mod_cast Int.lt_add_one_iff.mp h2
  simp only [round2]
  linarith

theorem round2_le_add (q : Rat) : round2 q ≤ q + 1/200 := by
  have h : (⌊q * 100 + 1/2⌋ : ℚ) ≤ q * 100 + 1/2 := Int.floor_le _
  simp only [round2]
  linarith

theorem insertBy_perm {α : Type} (le : α → α → Bool) (x : α) :
    ∀ l : List α, (insertBy le x l).Perm (x :: l)
  | [] => List.Perm.refl _
  | y :: ys => by
    simp only [insertBy]
    by_cases h : le x y = true
    · simp only [if_pos h]
      exact List.Perm.refl _
    · simp only [if_neg h]
      exact (((insertBy_perm le x ys).cons y).trans (List.Perm.swap x y ys))

theorem sortBy_perm {α : Type} (le : α → α → Bool) :
    ∀ l : List α, (sortBy le l).Perm l
  | [] => List.Perm.refl _
  | x :: xs =>
    (insertBy_perm le x (sortBy le xs)).trans ((sortBy_perm le xs).cons x)

theorem insertBy_pairwise {α : Type} (le : α → α → Bool)
    (htrans : ∀ a b c, le a b = true → le b c = true → le a c = true)
    (htot : ∀ a b, le a b = true ∨ le b a = true) (x : α) :
    ∀ l : List α, l.Pairwise (fun a b => le a b = true) →
      (insertBy le x l).Pairwise (fun a b => le a b = true)
  | [], _ => by simp [insertBy]
  | y :: ys, hl => by
    rcases List.pairwise_cons.mp hl with ⟨hy, hys⟩
    simp only [insertBy]
    by_cases h : le x y = true
    · simp only [if_pos h]
      refine List.pairwise_cons.mpr ⟨?_, hl⟩
      intro z hz
      rcases List.mem_cons.mp hz with rfl | hz2
      · exact h
      · exact htrans x y z h (hy z hz2)
    · simp only [if_neg h]
      have hyx : le y x = true := (htot x y).resolve_left h
      refine List.pairwise_cons.mpr ⟨?_, insertBy_pairwise le htrans htot x ys hys⟩
      intro z hz
      have hz2 : z ∈ x :: ys := (insertBy_perm le x ys).mem_iff.mp hz
      rcases List.mem_cons.mp hz2 with rfl | hz3
      · exact hyx
      · exact hy z hz3

theorem sortBy_pairwise {α : Type} (le : α → α → Bool)
    (htrans : ∀ a b c, le a b = true → le b c = true → le a c = true)
    (htot : ∀ a b, le a b = true ∨ le b a = true) :
    ∀ l : List α, (sortBy le l).Pairwise (fun a b => le a b = true)
  | [] => List.Pairwise.nil
  | x :: xs => insertBy_pairwise le htrans htot x _ (sortBy_pairwise le htrans htot xs)

theorem countQ_append (a b : String) : countQ (a ++ b) = countQ a + countQ b := by
  simp [countQ, String.data_append, List.countP_append]

theorem countQ_pyJoin_one :
    ∀ parts : List String, (∀ p ∈ parts, countQ p = 1) →
      countQ (pyJoin " AND " parts) = parts.length
  | [], _ => by decide
  | [x], h => by
    simpa [pyJoin] using h x (by simp)
  | x :: y :: xs, h => by
    have hx : countQ x = 1 := h x (by simp)
    have hrest : countQ (pyJoin " AND " (y :: xs)) = (y :: xs).length :=
      countQ_pyJoin_one (y :: xs) (fun p hp => h p (List.mem_cons_of_mem x hp))
    have hand : countQ " AND " = 0 := by decide
    calc countQ (pyJoin " AND " (x :: y :: xs))
        = countQ ((x ++ " AND ") ++ pyJoin " AND " (y :: xs)) := by
          simp only [pyJoin, String.append_assoc]
      _ = countQ (x ++ " AND ") + countQ (pyJoin " AND " (y :: xs)) := countQ_append _ _
      _ = (x :: y :: xs).length := by
          rw [countQ_append, hx, hand, hrest]
          simp only [List.length_cons]
          omega

theorem filterConds_col (f : PrimaryFilters) (c : String × String)
    (hc : c ∈ filterConds f) : countQ c.1 = 0 := by
  simp only [filterConds, filterPairs, List.mem_filterMap, List.mem_cons,
    List.mem_singleton, List.not_mem_nil] at hc
  obtain ⟨p, hp, he⟩ := hc
  rcases Option.map_eq_some'.mp he with ⟨v, _, rfl⟩
  rcases hp with rfl | rfl | rfl | rfl | rfl | rfl | rfl | h
  · exact (by decide : countQ "device" = 0)
  · exact (by decide : countQ "state" = 0)
  · exact (by decide : countQ "age_group" = 0)
  · exact (by decide : countQ "network" = 0)
  · exact (by decide : countQ "category" = 0)
  · exact (by decide : countQ "payment_method" = 0)
  · exact (by decide : countQ "status" = 0)
  · cases h

theorem string_append_left_ne (a b : String) (h : a ≠ "") : a ++ b ≠ "" := by
  intro hc
  apply h
  have hl := congrArg String.length hc
  rw [String.length_append] at hl
  have h0 : a.length = 0 := by
    have : ("" : String).length = 0 := rfl
    omega
  exact String.ext (List.eq_nil_of_length_eq_zero h0)

theorem frQuery_ne (w : String) : frQuery w ≠ "" :=
  string_append_left_ne _ w (by decide)

theorem aggQuery_ne (metric : String) (mexpr : MetricExpr) (bs : List String)
    (w : String) : aggQuery metric mexpr bs w ≠ "" := by
  by_cases h : bs.isEmpty
  · simp only [aggQuery, if_pos h]
    repeat refine string_append_left_ne _ _ ?_
    decide
  · simp only [aggQuery, if_neg h]
    repeat refine string_append_left_ne _ _ ?_
    decide

theorem compareQuery_ne (metric : String) (mexpr : MetricExpr) (w a b : String) :
    compareQuery metric mexpr w a b ≠ "" := by
  simp only [compareQuery]
  repeat refine string_append_left_ne _ _ ?_
  decide

theorem tsQuery_ne (metric : String) (mexpr : MetricExpr) (texpr : String)
    (gb : Option String) (w : String) : tsQuery metric mexpr texpr gb w ≠ "" := by
  cases gb with
  | none =>
    simp only [tsQuery]
    repeat refine string_append_left_ne _ _ ?_
    decide
  | some g =>
    simp only [tsQuery]
    repeat refine string_append_left_ne _ _ ?_
    decide

theorem topQuery_ne (w : String) (limit : Nat) : topQuery w limit ≠ "" := by
  simp only [topQuery]
  repeat refine string_append_left_ne _ _ ?_
  decide

theorem summaryQuery_ne (w : String) : summaryQuery w ≠ "" :=
  string_append_left_ne _ w (by decide)

theorem fr_wellFormed (c : Option Unit) (f : Option PrimaryFilters)
    (tw : Option TimeWindow) (now : Int) (e1 : Except String FrFetchRow)
    (e2 : Except String (List Row)) :
    resultWellFormed (compute_failure_rate c f tw now e1 e2) := by
  cases c with
  | none =>
    refine ⟨fun _ => ⟨rfl, rfl⟩, ?_⟩
    show ("N/A" : String) ≠ ""
    decide
  | some u =>
    cases e1 with
    | error e =>
      refine ⟨fun _ => ⟨rfl, rfl⟩, ?_⟩
      show frQuery _ ≠ ""
      exact frQuery_ne _
    | ok r =>
      cases e2 with
      | error e =>
        refine ⟨fun _ => ⟨rfl, rfl⟩, ?_⟩
        show frQuery _ ≠ ""
        exact frQuery_ne _
      | ok s =>
        refine ⟨fun h => ?_, ?_⟩
        · simp [compute_failure_rate] at h
        · show frQuery _ ≠ ""
          exact frQuery_ne _

theorem agg_wellFormed (c : Option Unit) (metric : String) (by_ : Option (List String))
    (f : Option PrimaryFilters) (tw : Option TimeWindow) (now : Int)
    (e : Except String (List AggRow)) :
    resultWellFormed (aggregate c metric by_ f tw now e) := by
  cases c with
  | none =>
    refine ⟨fun _ => ⟨rfl, rfl⟩, ?_⟩
    show ("N/A" : String) ≠ ""
    decide
  | some u =>
    cases e with
    | error err =>
      refine ⟨fun _ => ⟨rfl, rfl⟩, ?_⟩
      show aggQuery _ _ _ _ ≠ ""
      exact aggQuery_ne _ _ _ _
    | ok df =>
      by_cases hb : (by_.getD []).isEmpty
      · refine ⟨fun h => ?_, ?_⟩
        · simp [aggregate, hb] at h
        · simp only [aggregate, hb]
          exact aggQuery_ne _ _ _ _
      · refine ⟨fun h => ?_, ?_⟩
        · simp [aggregate, hb] at h
        · simp only [aggregate, hb]
          exact aggQuery_ne _ _ _ _

theorem compare_wellFormed (c : Option Unit) (segA segB : List (String × String))
    (metric : String) (f : Option PrimaryFilters) (tw : Option TimeWindow) (now : Int)
    (e : Except String (List SegRow)) :
    resultWellFormed (compare_segments c segA segB metric f tw now e) := by
  cases c with
  | none =>
    refine ⟨fun _ => ⟨rfl, rfl⟩, ?_⟩
    show ("N/A" : String) ≠ ""
    decide
  | some u =>
    cases e with
    | error err =>
      refine ⟨fun _ => ⟨rfl, rfl⟩, ?_⟩
      show compareQuery _ _ _ _ _ ≠ ""
      exact compareQuery_ne _ _ _ _ _
    | ok df =>
      refine ⟨fun h => ?_, ?_⟩
      · simp [compare_segments] at h
      · show compareQuery _ _ _ _ _ ≠ ""
        exact compareQuery_ne _ _ _ _ _

theorem ts_wellFormed (c : Option Unit) (metric time_col period : String)
    (f : Option PrimaryFilters) (tw : Option TimeWindow) (now : Int)
    (gb : Option String) (e : Except String (List TsRow)) :
    resultWellFormed (time_series c metric time_col period f tw now gb e) := by
  cases c with
  | none =>
    refine ⟨fun _ => ⟨rfl, rfl⟩, ?_⟩
    show ("N/A" : String) ≠ ""
    decide
  | some u =>
    cases e with
    | error err =>
      refine ⟨fun _ => ⟨rfl, rfl⟩, ?_⟩
      show tsQuery _ _ _ _ _ ≠ ""
      exact tsQuery_ne _ _ _ _ _
    | ok df =>
      refine ⟨fun h => ?_, ?_⟩
      · simp [time_series] at h
      · show tsQuery _ _ _ _ _ ≠ ""
        exact tsQuery_ne _ _ _ _ _

theorem top_wellFormed (c : Option Unit) (f : Option PrimaryFilters)
    (tw : Option TimeWindow) (now : Int) (limit : Nat)
    (e : Except String (List CodeRow)) :
    resultWellFormed (get_top_failure_codes c f tw now limit e) := by
  cases c with
  | none =>
    refine ⟨fun _ => ⟨rfl, rfl⟩, ?_⟩
    show ("N/A" : String) ≠ ""
    decide
  | some u =>
    cases e with
    | error err =>
      refine ⟨fun _ => ⟨rfl, rfl⟩, ?_⟩
      show topQuery _ _ ≠ ""
      exact topQuery_ne _ _
    | ok df =>
      refine ⟨fun h => ?_, ?_⟩
      · simp [get_top_failure_codes] at h
      · show topQuery _ _ ≠ ""
        exact topQuery_ne _ _

theorem summary_wellFormed (c : Option Unit) (tw : Option TimeWindow) (now : Int)
    (e : Except String SummaryRow) :
    resultWellFormed (get_executive_summary c tw now e) := by
  cases c with
  | none =>
    refine ⟨fun _ => ⟨rfl, rfl⟩, ?_⟩
    show ("N/A" : String) ≠ ""
    decide
  | some u =>
    cases e with
    | error err =>
      refine ⟨fun _ => ⟨rfl, rfl⟩, ?_⟩
      show summaryQuery _ ≠ ""
      exact summaryQuery_ne _
    | ok r =>
      cases hv : r.total_volume with
      | none =>
        refine ⟨fun h => ⟨?_, ?_⟩, ?_⟩
        · simp [get_executive_summary, hv, fmtCurrencyReq]
        · simp [get_executive_summary, hv, fmtCurrencyReq]
        · simp only [get_executive_summary, hv, fmtCurrencyReq]
          exact summaryQuery_ne _
      | some v =>
        cases ha : r.avg_transaction_amount with
        | none =>
          refine ⟨fun h => ⟨?_, ?_⟩, ?_⟩
          · simp [get_executive_summary, hv, ha, fmtCurrencyReq]
          · simp [get_executive_summary, hv, ha, fmtCurrencyReq]
          · simp only [get_executive_summary, hv, ha, fmtCurrencyReq]
            exact summaryQuery_ne _
        | some a =>
          refine ⟨fun h => ?_, ?_⟩
          · simp [get_executive_summary, hv, ha, fmtCurrencyReq] at h
          · simp only [get_executive_summary, hv, ha, fmtCurrencyReq]
            exact summaryQuery_ne _

/-! ## Claim C6 -/

/-- C6: Every analysis operation (single metric, grouped aggregation,
segment comparison, time series, top-N failure codes, executive
summary) is a total function into `AnalysisResult` (exceptions from
query execution enter as `Except.error` values and are caught), and for
every input: on failure `success` is false with `error` populated and
`numbers` empty, and the executed query text is populated even on
failure. -/
theorem operations_error_boundary
    (conn : Option Unit) (f : Option PrimaryFilters) (tw : Option TimeWindow) (now : Int)
    (metric time_col period : String) (by_ : Option (List String))
    (segA segB : List (String × String)) (gb : Option String) (limit : Nat)
    (e1 : Except String FrFetchRow) (e2 : Except String (List Row))
    (e3 : Except String (List AggRow)) (e4 : Except String (List SegRow))
    (e5 : Except String (List TsRow)) (e6 : Except String (List CodeRow))
    (e7 : Except String SummaryRow) :
    resultWellFormed (compute_failure_rate conn f tw now e1 e2) ∧
    resultWellFormed (aggregate conn metric by_ f tw now e3) ∧
    resultWellFormed (compare_segments conn segA segB metric f tw now e4) ∧
    resultWellFormed (time_series conn metric time_col period f tw now gb e5) ∧
    resultWellFormed (get_top_failure_codes conn f tw now limit e6) ∧
    resultWellFormed (get_executive_summary conn tw now e7) :=
  ⟨fr_wellFormed _ _ _ _ _ _, agg_wellFormed _ _ _ _ _ _ _,
   compare_wellFormed _ _ _ _ _ _ _ _, ts_wellFormed _ _ _ _ _ _ _ _ _,
   top_wellFormed _ _ _ _ _ _, summary_wellFormed _ _ _ _⟩

/-- Witness for C6: a concrete failing execution (a raised exception on
the main query) yields a failure result with the error recorded, no
numbers, and a populated query text. -/
theorem operations_error_boundary_witness :
    (compute_failure_rate (some ()) none none 0 (Except.error "boom") (Except.ok [])).success = false ∧
    (compute_failure_rate (some ()) none none 0 (Except.error "boom") (Except.ok [])).error.isSome ∧
    (compute_failure_rate (some ()) none none 0 (Except.error "boom") (Except.ok [])).numbers = [] ∧
    (compute_failure_rate (some ()) none none 0 (Except.error "boom") (Except.ok [])).query_executed ≠ "" ∧
    (aggregate (some ()) "volume" none none none 0 (Except.error "agg down")).numbers = [] := by
  have h := operations_error_boundary (some ()) none none 0 "volume" "date_only" "day"
    none [] [] none 10 (Except.error "boom") (Except.ok []) (Except.error "agg down")
    (Except.ok []) (Except.ok []) (Except.ok [])
    (Except.ok { total_transactions := 0, total_volume := none,
                 avg_transaction_amount := none, failure_rate := none,
                 fraud_rate := none, review_rate := none })
  exact ⟨rfl, (h.1.1 rfl).1, (h.1.1 rfl).2, h.1.2, (h.2.1.1 rfl).2⟩

/-! ## Claim C3 -/

theorem length_filterMap_pairs :
    ∀ l : List (String × Option String),
      (l.filterMap (fun p => p.2.map (fun v => (p.1, v)))).length =
        (l.filter (fun p => p.2.isSome)).length
  | [] => rfl
  | (c, v) :: rest => by
    cases v with
    | none =>
      simpa [List.filterMap_cons, List.filter_cons] using length_filterMap_pairs rest
    | some x =>
      simpa [List.filterMap_cons, List.filter_cons] using length_filterMap_pairs rest

theorem bwc_fst_eq (f : PrimaryFilters) :
    (build_where_clause f).1 =
      (if ((filterConds f).map (fun c => c.1)).isEmpty then "1=1"
       else pyJoin " AND " (((filterConds f).map (fun c => c.1)).map (fun s => s ++ " = ?"))) := by
  cases hfc : filterConds f with
  | nil => simp [build_where_clause, hfc]
  | cons c cs => simp [build_where_clause, hfc, List.map_map, Function.comp_def]

/-- C3: For every `Filters` value the Predicate Builder returns the
conjunction of one `col = ?` equality per set field (so the predicate
text has exactly one placeholder per bound value and depends only on
which fields are set, never on the filter values themselves), together
with the bound values in the source's fixed field order; with no field
set it returns the always-true predicate `1=1` with no parameters, and
its semantics accepts every row. -/
theorem build_where_clause_spec :
    (∀ f : PrimaryFilters,
      (build_where_clause f).2 = (filterConds f).map (fun c => c.2) ∧
      countQ (build_where_clause f).1 = (build_where_clause f).2.length ∧
      (filterConds f).length = ((filterPairs f).filter (fun p => p.2.isSome)).length ∧
      (∀ g : PrimaryFilters,
        (filterConds f).map (fun c => c.1) = (filterConds g).map (fun c => c.1) →
        (build_where_clause f).1 = (build_where_clause g).1) ∧
      (∀ r : Row, rowMatches f r = true ↔
        ∀ c ∈ filterConds f, colVal c.1 r = some c.2)) ∧
    build_where_clause {} = ("1=1", []) ∧
    (∀ r : Row, rowMatches {} r = true) := by
  refine ⟨fun f => ⟨rfl, ?_, ?_, ?_, ?_⟩, by decide, fun r => rfl⟩
  · by_cases h : (filterConds f).isEmpty
    · have h2 : filterConds f = [] := List.isEmpty_iff.mp h
      simp [build_where_clause, h2]
      decide
    · have h2 : ¬((filterConds f).map (fun c => c.1 ++ " = ?")).isEmpty := by
        simpa [List.isEmpty_iff] using h
      simp only [build_where_clause, if_neg h2, List.length_map]
      rw [countQ_pyJoin_one]
      · simp
      · intro p hp
        rcases List.mem_map.mp hp with ⟨c, hc, rfl⟩
        rw [countQ_append, filterConds_col f c hc]
        decide
  · exact length_filterMap_pairs (filterPairs f)
  · intro g hfg
    rw [bwc_fst_eq f, bwc_fst_eq g, hfg]
  · intro r
    simp [rowMatches, List.all_eq_true, condHolds]

/-- Witness for C3: a concrete filter with two set fields yields the
two-placeholder predicate and the two bound values in field order, and
the always-true case accepts a concrete row. -/
theorem build_where_clause_spec_witness :
    build_where_clause { device := some "Android", status := some "Failed" } =
      ("device = ? AND status = ?", ["Android", "Failed"]) ∧
    countQ "device = ? AND status = ?" = 2 ∧
    rowMatches {} { device := "iOS" } = true := by
  have h := build_where_clause_spec
  refine ⟨by decide, ?_, h.2.2 { device := "iOS" }⟩
  have h2 := (h.1 { device := some "Android", status := some "Failed" }).2.1
  simpa [(by decide : build_where_clause { device := some "Android", status := some "Failed" } =
    ("device = ? AND status = ?", ["Android", "Failed"]))] using h2

/-! ## Claim C4 -/

theorem merge_and_ts (x : String) :
    " AND " ++ ("timestamp" ++ x) = " AND timestamp" ++ x := by
  rw [← String.append_assoc]
  exact congrArg (fun s => s ++ x) (by decide)

theorem merge_ts_ge (x : String) :
    " AND timestamp" ++ (" >= \x27" ++ x) = " AND timestamp >= \x27" ++ x := by
  rw [← String.append_assoc]
  exact congrArg (fun s => s ++ x) (by decide)

theorem merge_ts_le (x : String) :
    " AND timestamp" ++ (" <= \x27" ++ x) = " AND timestamp <= \x27" ++ x := by
  rw [← String.append_assoc]
  exact congrArg (fun s => s ++ x) (by decide)

theorem merge_q_ge (x : String) :
    "\x27" ++ (" AND timestamp >= \x27" ++ x) = "\x27 AND timestamp >= \x27" ++ x := by
  rw [← String.append_assoc]
  exact congrArg (fun s => s ++ x) (by decide)

theorem merge_q_le (x : String) :
    "\x27" ++ (" AND timestamp <= \x27" ++ x) = "\x27 AND timestamp <= \x27" ++ x := by
  rw [← String.append_assoc]
  exact congrArg (fun s => s ++ x) (by decide)

theorem atw_eq_clauses (w : String) (t : TimeWindow) (now : Int) :
    apply_time_window w (some t) now = (appendClauses w (timeClauses (some t) now), []) := by
  rcases t with ⟨p, fd, fk, td, tk⟩
  cases p with
  | none =>
    cases fd <;> cases fk <;> cases td <;> cases tk <;>
      simp [apply_time_window, timeClauses, appendClauses, renderTimeClause,
        Option.orElse, String.append_assoc, merge_and_ts, merge_ts_ge, merge_ts_le, merge_q_ge, merge_q_le]
  | some ps =>
    by_cases hp : ps = "" <;> cases fd <;> cases fk <;> cases td <;> cases tk <;>
      simp [apply_time_window, timeClauses, appendClauses, renderTimeClause,
        Option.orElse, String.append_assoc, hp, merge_and_ts, merge_ts_ge, merge_ts_le, merge_q_ge, merge_q_le]

/-- C4: The Time Window Resolver leaves the predicate unchanged when no
window (or an empty window) is given; otherwise it appends timestamp
bounds: a truthy relative period tag contributes `timestamp ≥ now − N`
with N = 7, 30, 90 for the three known tags and N = 30 for any other
tag; explicit from/to dates contribute independent `≥`/`≤` bounds that
compose with (not replace) the relative bound; and every appended bound
compares the raw `timestamp` column. -/
theorem apply_time_window_spec :
    (∀ (w : String) (now : Int), apply_time_window w none now = (w, [])) ∧
    (∀ (w : String) (now : Int), apply_time_window w (some {}) now = (w, [])) ∧
    (∀ (w : String) (t : TimeWindow) (now : Int),
      apply_time_window w (some t) now = (appendClauses w (timeClauses (some t) now), [])) ∧
    (∀ (t : Option TimeWindow) (now : Int) (c : TimeClause),
      c ∈ timeClauses t now → c.col = "timestamp") ∧
    periodDays "last_7_days" = 7 ∧
    periodDays "last_30_days" = 30 ∧
    periodDays "last_90_days" = 90 ∧
    (∀ p : String, p ∉ (["last_7_days", "last_30_days", "last_90_days"] : List String) →
      periodDays p = 30) ∧
    (∀ (p : String) (now : Int), p ≠ "" →
      timeClauses (some { period := some p }) now =
        [⟨"timestamp", Cmp.ge, now - periodDays p⟩]) ∧
    (∀ (p : String) (d1 d2 now : Int), p ≠ "" →
      timeClauses (some { period := some p, from_date := some d1, to_date := some d2 }) now =
        [⟨"timestamp", Cmp.ge, now - periodDays p⟩, ⟨"timestamp", Cmp.ge, d1⟩,
         ⟨"timestamp", Cmp.le, d2⟩]) ∧
    (∀ (tw : Option TimeWindow) (now : Int) (r : Row),
      rowInWindow tw now r = true ↔ ∀ c ∈ timeClauses tw now, clauseHolds r c = true) := by
  refine ⟨fun w now => rfl, fun w now => rfl, atw_eq_clauses, ?_, rfl, rfl, rfl, ?_, ?_, ?_, ?_⟩
  · intro t now c hc
    match t with
    | none => cases hc
    | some tv =>
      rcases tv with ⟨p, fd, fk, td, tk⟩
      simp only [timeClauses, List.mem_append] at hc
      rcases hc with (hc | hc) | hc
      · cases p with
        | none => cases hc
        | some ps =>
          by_cases hp : ps = "" <;> simp [hp] at hc
          rw [hc]
      · cases hfd : (fd.orElse fun _ => fk) <;> rw [hfd] at hc
        · cases hc
        · rcases List.mem_singleton.mp hc with rfl
          rfl
      · cases htd : (td.orElse fun _ => tk) <;> rw [htd] at hc
        · cases hc
        · rcases List.mem_singleton.mp hc with rfl
          rfl
  · intro p hp
    simp only [List.mem_cons, List.not_mem_nil, or_false, not_or] at hp
    obtain ⟨h7, h30, h90⟩ := hp
    simp [periodDays, h7, h30, h90]
  · intro p now hp
    simp [timeClauses, hp, Option.orElse]
  · intro p d1 d2 now hp
    simp [timeClauses, hp, Option.orElse]
  · intro tw now r
    simp [rowInWindow, List.all_eq_true]

/-- Witness for C4: a concrete window with both a relative period and
explicit dates produces the composed clause list (and the unrecognized
tag `yesterday` resolves to 30 days). -/
theorem apply_time_window_spec_witness :
    timeClauses
        (some { period := some "last_7_days", from_date := some 100, to_date := some 200 })
        1000 =
      [⟨"timestamp", Cmp.ge, 993⟩, ⟨"timestamp", Cmp.ge, 100⟩, ⟨"timestamp", Cmp.le, 200⟩] ∧
    periodDays "yesterday" = 30 ∧
    apply_time_window "1=1" none 1000 = ("1=1", []) := by
  have h := apply_time_window_spec
  refine ⟨?_, h.2.2.2.2.2.2.2.1 "yesterday" (by decide), h.1 "1=1" 1000⟩
  have h2 := h.2.2.2.2.2.2.2.2.2.1 "last_7_days" 100 200 1000 (by decide)
  simpa [(by decide : periodDays "last_7_days" = 7)] using h2

/-! ## Claim C2 -/

theorem round2_ten : round2 (100 * ((10 : ℕ) : ℚ) / ((100 : ℕ) : ℚ)) = 10 := by
  norm_num [round2]

/-- C2: For every table, filter set and time window, the failure-rate
operation succeeds with a rate in [0, 100]; with no matching rows the
reported rate is 0; the rate equals the rounded percentage of failed
rows among matching rows; and the first NumberResult's provenance has
numerator = count of matching rows with status Failed and denominator =
total matching row count. -/
theorem compute_failure_rate_correct (rows : List Row) (f : PrimaryFilters)
    (tw : Option TimeWindow) (now : Int) :
    (fr_honest rows f tw now).success = true ∧
    0 ≤ headRaw (fr_honest rows f tw now) ∧
    headRaw (fr_honest rows f tw now) ≤ 100 ∧
    ((rows.filter (fullPred f tw now)).length = 0 → headRaw (fr_honest rows f tw now) = 0) ∧
    headRaw (fr_honest rows f tw now) =
      (if (rows.filter (fullPred f tw now)).length = 0 then 0
       else round2 (100 *
         (((rows.filter (fullPred f tw now)).filter (fun x => x.status == "Failed")).length : ℚ) /
         ((rows.filter (fullPred f tw now)).length : ℚ))) ∧
    (headCalc (fr_honest rows f tw now)).numerator =
      some ((((rows.filter (fullPred f tw now)).filter (fun x => x.status == "Failed")).length : ℚ)) ∧
    (headCalc (fr_honest rows f tw now)).denominator =
      some (((rows.filter (fullPred f tw now)).length : ℚ)) := by
  by_cases h : (rows.filter (fullPred f tw now)).length = 0
  · have hm : rows.filter (fullPred f tw now) = [] := List.length_eq_zero.mp h
    simp [fr_honest, compute_failure_rate, frFetch, headRaw, headNumber, headCalc, hm]
  · have htpos : (0 : ℚ) < ((rows.filter (fullPred f tw now)).length : ℚ) := by
      exact_mod_cast Nat.pos_of_ne_zero h
    have hfle : ((((rows.filter (fullPred f tw now)).filter
        (fun x => x.status == "Failed")).length : ℚ)) ≤
        ((rows.filter (fullPred f tw now)).length : ℚ) := by
      exact_mod_cast List.length_filter_le _ _
    have hq0 : 0 ≤ 100 *
        (((rows.filter (fullPred f tw now)).filter (fun x => x.status == "Failed")).length : ℚ) /
        ((rows.filter (fullPred f tw now)).length : ℚ) := by positivity
    have hq100 : 100 *
        (((rows.filter (fullPred f tw now)).filter (fun x => x.status == "Failed")).length : ℚ) /
        ((rows.filter (fullPred f tw now)).length : ℚ) ≤ 100 := by
      rw [div_le_iff₀ htpos]
      linarith
    have hr : headRaw (fr_honest rows f tw now) =
        round2 (100 *
          (((rows.filter (fullPred f tw now)).filter (fun x => x.status == "Failed")).length : ℚ) /
          ((rows.filter (fullPred f tw now)).length : ℚ)) := by
      simp [fr_honest, compute_failure_rate, frFetch, headRaw, headNumber, h]
    refine ⟨by simp [fr_honest, compute_failure_rate], ?_, ?_, fun hc => absurd hc h, ?_, ?_, ?_⟩
    · rw [hr]
      exact round2_nonneg _ hq0
    · rw [hr]
      exact round2_le_100 _ hq100
    · rw [if_neg h]
      exact hr
    · simp [fr_honest, compute_failure_rate, frFetch, headCalc, headNumber, h]
    · simp [fr_honest, compute_failure_rate, frFetch, headCalc, headNumber, h]

/-- Witness for C2 (end-to-end scenario A): 100 rows with 10 failed
yield a successful result with numerator 10, denominator 100, and raw
failure rate 10. -/
theorem compute_failure_rate_correct_witness :
    (fr_honest rows100 {} none 0).success = true ∧
    (headCalc (fr_honest rows100 {} none 0)).numerator = some 10 ∧
    (headCalc (fr_honest rows100 {} none 0)).denominator = some 100 ∧
    headRaw (fr_honest rows100 {} none 0) = 10 := by
  have h := compute_failure_rate_correct rows100 {} none 0
  have hc10 : ((rows100.filter (fullPred {} none 0)).filter
      (fun x => x.status == "Failed")).length = 10 := by decide
  have hc100 : (rows100.filter (fullPred {} none 0)).length = 100 := by decide
  have hn := h.2.2.2.2.2.1
  have hd := h.2.2.2.2.2.2
  have hr := h.2.2.2.2.1
  rw [hc10] at hn
  rw [hc100] at hd
  rw [hc100, hc10] at hr
  refine ⟨h.1, by simpa using hn, by simpa using hd, ?_⟩
  rw [hr, if_neg (by decide : ¬((100 : ℕ) = 0)), round2_ten]

/-! ## Claim C5 -/

/-- C5: For every pair of fetched segment rows, segment comparison
returns exactly three NumberResults: segment A's value with its sample
size, segment B's value with its sample size, and a difference whose
raw value is the signed A − B and whose rendered percentage difference
uses B's value as denominator, reported as zero when B's value is zero;
the bar chart has exactly the two segment points. -/
theorem compare_segments_spec (va vb : ℚ) (sa sb : ℕ)
    (segA segB : List (String × String)) (metric : String) (f : PrimaryFilters)
    (tw : Option TimeWindow) (now : Int) (r : AnalysisResult)
    (hr : r = compare_segments (some ()) segA segB metric (some f) tw now
      (Except.ok [{ value := some va, sample_size := sa },
                  { value := some vb, sample_size := sb }])) :
    r.success = true ∧
    r.numbers.length = 3 ∧
    (r.numbers.headD {}).raw_value = some va ∧
    ((r.numbers.headD {}).calculation.getD {}).sample_size = some sa ∧
    (r.numbers[1]?.getD ({} : NumberDetail)).raw_value = some vb ∧
    ((r.numbers[1]?.getD ({} : NumberDetail)).calculation.getD {}).sample_size = some sb ∧
    (r.numbers[2]?.getD ({} : NumberDetail)).raw_value = some (va - vb) ∧
    (r.numbers[2]?.getD ({} : NumberDetail)).value =
      fmtSigned (va - vb) ++ " (" ++ fmtSigned (pctDiffOf (va - vb) vb) ++ "%)" ∧
    (vb = 0 → pctDiffOf (va - vb) vb = 0) ∧
    (vb ≠ 0 → pctDiffOf (va - vb) vb = (va - vb) / vb * 100) ∧
    (r.chart_data.getD {}).data.length = 2 ∧
    ((r.chart_data.getD {}).data.headD ({ x := "", y := 0 } : ChartDataPoint)).y = va ∧
    ((r.chart_data.getD {}).data[1]?.getD ({ x := "", y := 0 } : ChartDataPoint)).y = vb := by
  subst hr
  refine ⟨rfl, rfl, rfl, rfl, rfl, rfl, rfl, rfl, ?_, ?_, rfl, rfl, rfl⟩
  · intro h
    simp [pctDiffOf, h]
  · intro h
    simp [pctDiffOf, h]

/-- Witness for C5: comparing a 3-row Android segment (value 5) against
an empty iOS segment (value 0) yields the three numbers with signed
difference 5 and a zero percentage difference. -/
theorem compare_segments_spec_witness :
    (compare_segments (some ()) [("device", "Android")] [("device", "iOS")] "volume"
      (some {}) none 0
      (Except.ok [{ value := some 5, sample_size := 3 },
                  { value := some 0, sample_size := 0 }])).success = true ∧
    ((compare_segments (some ()) [("device", "Android")] [("device", "iOS")] "volume"
      (some {}) none 0
      (Except.ok [{ value := some 5, sample_size := 3 },
                  { value := some 0, sample_size := 0 }])).numbers[2]?.getD
      ({} : NumberDetail)).raw_value = some 5 ∧
    pctDiffOf ((5 : ℚ) - 0) 0 = 0 := by
  have h := compare_segments_spec 5 0 3 0 [("device", "Android")] [("device", "iOS")]
    "volume" {} none 0 _ rfl
  refine ⟨h.1, ?_, h.2.2.2.2.2.2.2.2.1 rfl⟩
  have h7 := h.2.2.2.2.2.2.1
  simpa using h7

/-! ## Claim C7 -/

/-- Counterexample to C7 as stated: on a table with 21 distinct days,
the time-series operation (run against the embedded semantics of its
own query) produces a chart series with 21 > 20 points. -/
theorem time_series_chart_exceeds_cap :
    20 < ((ts_honest rows21 "volume" {} none 0 none).chart_data.getD {}).data.length := by
  decide

/-- C7 (amended): the time-series operation caps its `numbers` list at
20 entries, but its chart series carries one point per fetched row and
is not capped; the grouped-aggregation chart series is capped at 20 by
the query's `LIMIT 20`; and the segment-comparison chart always has
exactly two points (hence at most 20). -/
theorem chart_point_caps :
    (∀ (conn : Option Unit) (metric time_col period : String) (f : Option PrimaryFilters)
       (tw : Option TimeWindow) (now : Int) (gb : Option String)
       (e : Except String (List TsRow)),
       (time_series conn metric time_col period f tw now gb e).numbers.length ≤ 20) ∧
    (∀ (metric time_col period : String) (f : Option PrimaryFilters) (tw : Option TimeWindow)
       (now : Int) (gb : Option String) (df : List TsRow),
       ((time_series (some ()) metric time_col period f tw now gb
         (Except.ok df)).chart_data.getD {}).data.length = df.length) ∧
    (∀ (rows : List Row) (metric : String) (by_ : Option (List String)) (f : PrimaryFilters)
       (tw : Option TimeWindow) (now : Int),
       ((agg_honest rows metric by_ f tw now).chart_data.map
         (fun c => c.data.length)).getD 0 ≤ 20) ∧
    (∀ (conn : Option Unit) (segA segB : List (String × String)) (metric : String)
       (f : Option PrimaryFilters) (tw : Option TimeWindow) (now : Int)
       (e : Except String (List SegRow)),
       ((compare_segments conn segA segB metric f tw now e).chart_data.map
         (fun c => c.data.length)).getD 0 ≤ 20) := by
  refine ⟨?_, ?_, ?_, ?_⟩
  · intro conn metric time_col period f tw now gb e
    cases conn with
    | none => simp [time_series]
    | some u =>
      cases e with
      | error err => simp [time_series]
      | ok df =>
        simp [time_series, List.length_take]
  · intro metric time_col period f tw now gb df
    simp [time_series]
  · intro rows metric by_ f tw now
    by_cases hb : (by_.getD []).isEmpty
    · simp [agg_honest, aggregate, hb]
    · simp [agg_honest, aggregate, aggEval, hb, List.length_take]
  · intro conn segA segB metric f tw now e
    cases conn with
    | none => simp [compare_segments]
    | some u =>
      cases e with
      | error err => simp [compare_segments]
      | ok df => simp [compare_segments]

/-! ## Claim C8 -/

theorem beq_option_string_eq :
    (instBEqOfDecidableEq : BEq (Option String)) = Option.instBEq := by
  have hext : ∀ i1 i2 : BEq (Option String),
      (∀ a b, @BEq.beq _ i1 a b = @BEq.beq _ i2 a b) → i1 = i2 := by
    intro i1 i2 hab
    cases i1
    cases i2
    congr 1
    funext a b
    exact hab a b
  apply hext
  intro a b
  rw [Bool.eq_iff_iff]
  constructor
  · intro h
    have hab : a = b := of_decide_eq_true h
    subst hab
    exact beq_self_eq_true a
  · intro h
    have hab : a = b := eq_of_beq h
    subst hab
    exact decide_eq_true rfl

theorem sum_group_counts (l : List Row) (k : Row → Option String) :
    (((l.map k).dedup).map (fun c => (l.filter (fun r => k r == c)).length)).sum = l.length := by
  have h := List.sum_map_count_dedup_eq_length (l.map k)
  rw [beq_option_string_eq] at h
  have h2 : (List.map k l).length = l.length := List.length_map _ _
  rw [← h2, ← h]
  apply congrArg List.sum
  apply List.map_congr_left
  intro c _
  rw [← List.countP_eq_length_filter, List.count_eq_countP, List.countP_map]
  rfl

theorem codeLe_trans (a b c : CodeRow) (hab : decide (b.count ≤ a.count) = true)
    (hbc : decide (c.count ≤ b.count) = true) : decide (c.count ≤ a.count) = true :=
  decide_eq_true (Nat.le_trans (of_decide_eq_true hbc) (of_decide_eq_true hab))

theorem codeLe_total (a b : CodeRow) :
    decide (b.count ≤ a.count) = true ∨ decide (a.count ≤ b.count) = true :=
  (Nat.le_total b.count a.count).imp decide_eq_true decide_eq_true

theorem topCodesEval_length_le (rows : List Row) (pred : Row → Bool) (limit : Nat) :
    (topCodesEval rows pred limit).length ≤ limit := by
  simp [topCodesEval, List.length_take]

theorem topCodesEval_sorted (rows : List Row) (pred : Row → Bool) (limit : Nat) :
    (topCodesEval rows pred limit).Pairwise (fun a b => b.count ≤ a.count) := by
  have hs := sortBy_pairwise (fun a b : CodeRow => decide (b.count ≤ a.count))
    codeLe_trans codeLe_total
    ((((rows.filter pred).filter (fun r => r.status == "Failed")).map
      (fun r => r.failure_code)).dedup.map (fun c =>
      { failure_code := c.getD "Unknown",
        count := (((rows.filter pred).filter (fun r => r.status == "Failed")).filter
          (fun r => r.failure_code == c)).length,
        percentage := round2 (100 *
          ((((rows.filter pred).filter (fun r => r.status == "Failed")).filter
            (fun r => r.failure_code == c)).length : ℚ) /
          ((((rows.filter pred).filter (fun r => r.status == "Failed"))).length : ℚ)) }))
  have ht := hs.sublist (List.take_sublist limit _)
  exact ht.imp (fun h => of_decide_eq_true h)

theorem topCodesEval_mem (rows : List Row) (pred : Row → Bool) (limit : Nat)
    (g : CodeRow) (hg : g ∈ topCodesEval rows pred limit) :
    ∃ c : Option String,
      g.failure_code = c.getD "Unknown" ∧
      g.count = (((rows.filter pred).filter (fun r => r.status == "Failed")).filter
        (fun r => r.failure_code == c)).length ∧
      g.percentage = round2 (100 * (g.count : ℚ) /
        ((((rows.filter pred).filter (fun r => r.status == "Failed"))).length : ℚ)) := by
  simp only [topCodesEval] at hg
  have hg2 := List.mem_of_mem_take hg
  have hg3 := (sortBy_perm _ _).mem_iff.mp hg2
  rcases List.mem_map.mp hg3 with ⟨c, _, rfl⟩
  exact ⟨c, rfl, rfl, rfl⟩

theorem sum_round2_take_le (grouped : List CodeRow) (Tn : ℕ) (hT : 0 < Tn) (limit : Nat)
    (hpct : ∀ g ∈ grouped, g.percentage = round2 (100 * (g.count : ℚ) / (Tn : ℚ)))
    (hsum : (grouped.map (fun g => g.count)).sum = Tn) :
    (((sortBy (fun a b : CodeRow => decide (b.count ≤ a.count)) grouped).take limit).map
      (fun g => g.percentage)).sum ≤
      100 + ((((sortBy (fun a b : CodeRow => decide (b.count ≤ a.count)) grouped).take
        limit).length : ℚ)) / 200 := by
  have hTQ : (0 : ℚ) < (Tn : ℚ) := by exact_mod_cast hT
  have hsumQ : (grouped.map (fun g => (g.count : ℚ))).sum = (Tn : ℚ) := by
    rw [← hsum, Nat.cast_list_sum, List.map_map]
    rfl
  have hmem : ∀ g ∈ (sortBy (fun a b : CodeRow => decide (b.count ≤ a.count)) grouped).take limit,
      g ∈ grouped := by
    intro g hg
    exact (sortBy_perm _ grouped).mem_iff.mp (List.mem_of_mem_take hg)
  have hstep1 : (((sortBy (fun a b : CodeRow => decide (b.count ≤ a.count)) grouped).take
      limit).map (fun g => g.percentage)).sum ≤
      (((sortBy (fun a b : CodeRow => decide (b.count ≤ a.count)) grouped).take limit).map
        (fun g => 100 * (g.count : ℚ) / (Tn : ℚ) + 1 / 200)).sum := by
    apply List.sum_le_sum
    intro g hg
    rw [hpct g (hmem g hg)]
    exact round2_le_add _
  have hstep2 : (((sortBy (fun a b : CodeRow => decide (b.count ≤ a.count)) grouped).take
      limit).map (fun g => 100 * (g.count : ℚ) / (Tn : ℚ) + 1 / 200)).sum =
      (((sortBy (fun a b : CodeRow => decide (b.count ≤ a.count)) grouped).take limit).map
        (fun g => 100 * (g.count : ℚ) / (Tn : ℚ))).sum +
      ((((sortBy (fun a b : CodeRow => decide (b.count ≤ a.count)) grouped).take
        limit).length : ℚ)) / 200 := by
    rw [List.sum_map_add]
    congr 1
    rw [List.map_const', List.sum_replicate, nsmul_eq_mul]
    ring
  have hstep3 : (((sortBy (fun a b : CodeRow => decide (b.count ≤ a.count)) grouped).take
      limit).map (fun g => 100 * (g.count : ℚ) / (Tn : ℚ))).sum ≤ 100 := by
    have hle1 : (((sortBy (fun a b : CodeRow => decide (b.count ≤ a.count)) grouped).take
        limit).map (fun g => 100 * (g.count : ℚ) / (Tn : ℚ))).sum ≤
        ((sortBy (fun a b : CodeRow => decide (b.count ≤ a.count)) grouped).map
          (fun g => 100 * (g.count : ℚ) / (Tn : ℚ))).sum := by
      apply List.Sublist.sum_le_sum ((List.take_sublist _ _).map _)
      intro q hq
      rcases List.mem_map.mp hq with ⟨g, _, rfl⟩
      positivity
    refine hle1.trans ?_
    rw [((sortBy_perm (fun a b : CodeRow => decide (b.count ≤ a.count)) grouped).map
      (fun g => 100 * (g.count : ℚ) / (Tn : ℚ))).sum_eq]
    have hrw : grouped.map (fun g => 100 * (g.count : ℚ) / (Tn : ℚ)) =
        grouped.map (fun g => (100 / (Tn : ℚ)) * (g.count : ℚ)) := by
      apply List.map_congr_left
      intro g _
      ring
    rw [hrw, List.sum_map_mul_left, hsumQ]
    rw [div_mul_cancel₀]
    exact ne_of_gt hTQ
  calc (((sortBy (fun a b : CodeRow => decide (b.count ≤ a.count)) grouped).take limit).map
      (fun g => g.percentage)).sum
      ≤ _ := hstep1
    _ = _ := hstep2
    _ ≤ _ := by linarith

theorem topCodesEval_sum_le (rows : List Row) (pred : Row → Bool) (limit : Nat) :
    ((topCodesEval rows pred limit).map (fun g => g.percentage)).sum ≤
      100 + ((topCodesEval rows pred limit).length : ℚ) / 200 := by
  by_cases hT : ((rows.filter pred).filter (fun r => r.status == "Failed")).length = 0
  · have hnil : (rows.filter pred).filter (fun r => r.status == "Failed") = [] :=
      List.length_eq_zero.mp hT
    simp [topCodesEval, hnil, sortBy]
  · have hTpos : 0 < ((rows.filter pred).filter (fun r => r.status == "Failed")).length :=
      Nat.pos_of_ne_zero hT
    simp only [topCodesEval]
    refine sum_round2_take_le _
      ((rows.filter pred).filter (fun r => r.status == "Failed")).length hTpos limit ?_ ?_
    · intro g hg
      rcases List.mem_map.mp hg with ⟨c, _, rfl⟩
      rfl
    · rw [List.map_map]
      exact sum_group_counts ((rows.filter pred).filter (fun r => r.status == "Failed"))
        (fun r => r.failure_code)

/-- C8 (amended): the top-N failure-code breakdown considers only rows
with status Failed, returns at most N results ordered by frequency
descending, labels null codes Unknown, and reports for each code its
count and its rounded share of all failures; the returned (rounded)
percentages sum to at most 100 plus a rounding error of 1/200 per
returned row (the unrounded shares sum to at most 100, but rounding can
push the reported sum slightly above 100). -/
theorem top_failure_codes_spec (rows : List Row) (f : PrimaryFilters)
    (tw : Option TimeWindow) (now : Int) (limit : Nat)
    (r : AnalysisResult) (failed : List Row)
    (hr : r = top_honest rows f tw now limit)
    (hf : failed = (rows.filter (fullPred f tw now)).filter (fun x => x.status == "Failed")) :
    r.success = true ∧
    r.numbers.length ≤ limit ∧
    r.numbers.Pairwise (fun a b => b.raw_value.getD 0 ≤ a.raw_value.getD 0) ∧
    (∀ nd ∈ r.numbers, ∃ c : Option String,
      nd.label = c.getD "Unknown" ∧
      nd.raw_value = some (((failed.filter (fun x => x.failure_code == c)).length : ℚ)) ∧
      nd.value = natStr ((failed.filter (fun x => x.failure_code == c)).length) ++ " (" ++
        ratStr (round2 (100 * (((failed.filter (fun x => x.failure_code == c)).length : ℚ)) /
          (failed.length : ℚ))) ++ "%)") ∧
    ((topCodesEval rows (fullPred f tw now) limit).map (fun g => g.percentage)).sum ≤
      100 + ((topCodesEval rows (fullPred f tw now) limit).length : ℚ) / 200 := by
  subst hr hf
  refine ⟨rfl, ?_, ?_, ?_, topCodesEval_sum_le _ _ _⟩
  · simp only [top_honest, get_top_failure_codes, List.length_map]
    exact topCodesEval_length_le _ _ _
  · simp only [top_honest, get_top_failure_codes]
    rw [List.pairwise_map]
    apply (topCodesEval_sorted rows (fullPred f tw now) limit).imp
    intro a b hab
    simpa using Nat.cast_le.mpr hab
  · intro nd hnd
    simp only [top_honest, get_top_failure_codes] at hnd
    rcases List.mem_map.mp hnd with ⟨g, hg, rfl⟩
    rcases topCodesEval_mem rows (fullPred f tw now) limit g hg with ⟨c, hc1, hc2, hc3⟩
    refine ⟨c, ?_, ?_, ?_⟩
    · simpa using hc1
    · show some ((g.count : ℚ)) = _
      rw [hc2]
    · show natStr g.count ++ " (" ++ ratStr g.percentage ++ "%)" = _
      rw [hc3, hc2]

/-- Counterexample to C8 as stated: with six failed rows carrying six
distinct failure codes, each share 100/6 rounds up to 16.67, so the six
returned percentages sum to 100.02 > 100. -/
theorem top_codes_pct_sum_counterexample :
    (top_honest rows6 {} none 0 10).success = true ∧
    (top_honest rows6 {} none 0 10).numbers.length = 6 ∧
    ((topCodesEval rows6 (fullPred {} none 0) 10).map (fun g => g.percentage)).sum =
      10002 / 100 ∧
    (100 : ℚ) <
      ((topCodesEval rows6 (fullPred {} none 0) 10).map (fun g => g.percentage)).sum := by
  have hc : (topCodesEval rows6 (fullPred {} none 0) 10).map (fun g => g.count) =
      List.replicate 6 1 := by decide
  have hl : (topCodesEval rows6 (fullPred {} none 0) 10).length = 6 := by decide
  have hT : ((rows6.filter (fullPred {} none 0)).filter
      (fun r => r.status == "Failed")).length = 6 := by decide
  have hpct : ∀ g ∈ topCodesEval rows6 (fullPred {} none 0) 10,
      g.percentage = round2 (100 * (g.count : ℚ) / 6) := by
    intro g hg
    rcases topCodesEval_mem rows6 (fullPred {} none 0) 10 g hg with ⟨c, _, _, h3⟩
    rw [h3, hT]
    norm_num
  have hcnt1 : ∀ g ∈ topCodesEval rows6 (fullPred {} none 0) 10, g.count = 1 := by
    intro g hg
    have hmem : g.count ∈ (topCodesEval rows6 (fullPred {} none 0) 10).map
        (fun g => g.count) := List.mem_map_of_mem _ hg
    rw [hc] at hmem
    exact List.eq_of_mem_replicate hmem
  have hmap : (topCodesEval rows6 (fullPred {} none 0) 10).map (fun g => g.percentage) =
      List.replicate 6 (round2 (100 * (1 : ℚ) / 6)) := by
    rw [← hl, ← List.map_const]
    apply List.map_congr_left
    intro g hg
    rw [hpct g hg, hcnt1 g hg]
    simp [Function.const]
  have hsum : ((topCodesEval rows6 (fullPred {} none 0) 10).map
      (fun g => g.percentage)).sum = 10002 / 100 := by
    rw [hmap, List.sum_replicate, nsmul_eq_mul]
    norm_num [round2]
  refine ⟨rfl, by decide, hsum, ?_⟩
  rw [hsum]
  norm_num

/-- Witness for C8 (amended): the six-failed-row table instantiates the
amended theorem; the breakdown succeeds with six (≤ 10) results. -/
theorem top_failure_codes_spec_witness :
    (top_honest rows6 {} none 0 10).success = true ∧
    (top_honest rows6 {} none 0 10).numbers.length ≤ 10 := by
  have h := top_failure_codes_spec rows6 {} none 0 10 _ _ rfl rfl
  exact ⟨h.1, h.2.1⟩

/-! ## Claim C9 -/

/-- C9: For every metric name missing from an operation's aggregation
expression map, the operation silently substitutes `COUNT(*)` and (run
against the embedded semantics) returns a successful result computing a
row count: `aggregate` reports the matching-row count, the comparison
reports each segment's row count, and every time-series number is the
row count of its day bucket. -/
theorem unregistered_metric_count_fallback (metric : String) (rows : List Row)
    (f : PrimaryFilters) (tw : Option TimeWindow) (now : Int)
    (segA segB : List (String × String))
    (ha : agg_metric_expr_map.lookup (pyLower metric) = none)
    (hc : compare_metric_expr_map.lookup (pyLower metric) = none)
    (ht : ts_metric_expr_map.lookup (pyLower metric) = none) :
    aggMetricExpr metric = MetricExpr.countStar ∧
    compareMetricExpr metric = MetricExpr.countStar ∧
    tsMetricExpr metric = MetricExpr.countStar ∧
    (agg_honest rows metric none f tw now).success = true ∧
    headRaw (agg_honest rows metric none f tw now) =
      ((rows.filter (fullPred f tw now)).length : ℚ) ∧
    (compare_honest rows segA segB metric f tw now).success = true ∧
    headRaw (compare_honest rows segA segB metric f tw now) =
      ((((rows.filter (fullPred f tw now)).filter
        (fun r => segA.all (fun kv => colVal kv.1 r == some kv.2))).length : ℚ)) ∧
    ((compare_honest rows segA segB metric f tw now).numbers[1]?.getD
      ({} : NumberDetail)).raw_value =
      some ((((rows.filter (fullPred f tw now)).filter
        (fun r => segB.all (fun kv => colVal kv.1 r == some kv.2))).length : ℚ)) ∧
    (ts_honest rows metric f tw now none).success = true ∧
    (∀ nd ∈ (ts_honest rows metric f tw now none).numbers, ∃ t : String,
      nd.raw_value = some ((((rows.filter (fullPred f tw now)).filter
        (fun r => dayBucket r == t)).length : ℚ))) := by
  have hae : aggMetricExpr metric = MetricExpr.countStar := by
    simp [aggMetricExpr, ha]
  have hce : compareMetricExpr metric = MetricExpr.countStar := by
    simp [compareMetricExpr, hc]
  have hte : tsMetricExpr metric = MetricExpr.countStar := by
    simp [tsMetricExpr, ht]
  refine ⟨hae, hce, hte, rfl, ?_, rfl, ?_, ?_, rfl, ?_⟩
  · simp [agg_honest, aggregate, aggEval, hae, evalMetricExpr, headRaw, headNumber]
  · simp [compare_honest, compare_segments, segEval, hce, evalMetricExpr, headRaw, headNumber]
  · simp [compare_honest, compare_segments, segEval, hce, evalMetricExpr]
  · intro nd hnd
    simp only [ts_honest, time_series] at hnd
    have hnd2 := List.mem_of_mem_take hnd
    rcases List.mem_map.mp hnd2 with ⟨tr, htr, rfl⟩
    simp only [tsEval] at htr
    rcases List.mem_map.mp htr with ⟨k, hk, rfl⟩
    have hk2 := List.mem_dedup.mp hk
    rcases List.mem_map.mp hk2 with ⟨r0, _, rfl⟩
    refine ⟨dayBucket r0, ?_⟩
    have hfeq : (rows.filter (fullPred f tw now)).filter
        (fun r => dayBucket r == dayBucket r0 &&
          (Option.map (fun c => (colVal c r).getD "") (none : Option String)) ==
            (Option.map (fun c => (colVal c r0).getD "") (none : Option String))) =
        (rows.filter (fullPred f tw now)).filter (fun r => dayBucket r == dayBucket r0) := by
      apply List.filter_congr
      intro x _
      simp
    simp only [hte, evalMetricExpr, Option.map_none]
    simp [hfeq]

/-- Witness for C9: `fraud_rate` is missing from all three maps; on a
3-row table the aggregation succeeds and reports a row count of 3. -/
theorem unregistered_metric_count_fallback_witness :
    aggMetricExpr "fraud_rate" = MetricExpr.countStar ∧
    (agg_honest rows3 "fraud_rate" none {} none 0).success = true ∧
    headRaw (agg_honest rows3 "fraud_rate" none {} none 0) = 3 := by
  have h := unregistered_metric_count_fallback "fraud_rate" rows3 {} none 0
    [("device", "Android")] [("device", "iOS")] (by decide) (by decide) (by decide)
  refine ⟨h.1, h.2.2.2.1, ?_⟩
  have hr := h.2.2.2.2.1
  rw [hr, show (rows3.filter (fullPred {} none 0)).length = 3 from by decide]
  simp

/-! ## Claim C10 -/

/-- C10: the guard's vocabulary checks are case-insensitive (metric,
device and network values are lower-cased before membership tests, so
`FAILURE_RATE` and `ANDROID` are accepted), and the age-group,
category, state, payment-method and status filter values are never
checked: replacing them with arbitrary values leaves the guard's answer
unchanged. -/
theorem guard_case_insensitive_spec :
    is_metric_computable
      { metric := some "FAILURE_RATE", primary_filters := { device := some "ANDROID" } } =
      (true, "") ∧
    is_metric_computable
      { metric := some "Failure_Rate",
        primary_filters := { device := some "Android", network := some "WiFi" } } =
      (true, "") ∧
    (∀ intent : IntentSchema, (is_metric_computable intent).1 =
      (vocabOk supportedMetrics intent.metric &&
       vocabOk validDevices intent.primary_filters.device &&
       vocabOk validNetworks intent.primary_filters.network)) ∧
    (∀ (intent : IntentSchema) (a c s p st : Option String),
      is_metric_computable
        { metric := intent.metric,
          primary_filters :=
            { device := intent.primary_filters.device, state := s, age_group := a,
              network := intent.primary_filters.network, category := c,
              payment_method := p, status := st } } =
      is_metric_computable intent) := by
  refine ⟨by decide, by decide, ?_, fun intent a c s p st => rfl⟩
  intro intent
  rcases intent with ⟨m, pf⟩
  rcases pf with ⟨dev, st, ag, net, cat, pm, stt⟩
  cases m <;> cases dev <;> cases net <;>
    simp only [is_metric_computable, vocabOk] <;>
    simp [apply_ite Prod.fst, Bool.and_assoc, beq_eq_decide, decide_not] <;>
    (rw [Bool.eq_iff_iff]; simp)

/-! ## Claim C1 -/

/-- C1 (evaluating the code at the failing input): the Guard accepts
the metric name `fraud_rate` as computable, yet none of the three
aggregation expression maps registers it, so `aggregate` resolves it to
the `COUNT(*)` fallback and (on a 3-row table with no fraud-flagged
rows) successfully reports the row count 3 as the "fraud rate".  Of the
ten Guard-accepted names, exactly `failure_codes`, `fraud_rate`,
`review_rate` and `executive_summary` have no registered expression in
the aggregation map (only the first and last are routed to dedicated
operations). -/
theorem guard_accepts_unregistered_metric :
    is_metric_computable { metric := some "fraud_rate" } = (true, "") ∧
    agg_metric_expr_map.lookup "fraud_rate" = none ∧
    compare_metric_expr_map.lookup "fraud_rate" = none ∧
    ts_metric_expr_map.lookup "fraud_rate" = none ∧
    aggMetricExpr "fraud_rate" = MetricExpr.countStar ∧
    supportedMetrics.filter (fun m => (agg_metric_expr_map.lookup m).isNone) =
      ["failure_codes", "fraud_rate", "review_rate", "executive_summary"] ∧
    (agg_honest rows3 "fraud_rate" none {} none 0).success = true ∧
    headRaw (agg_honest rows3 "fraud_rate" none {} none 0) = 3 := by
  have he : aggMetricExpr "fraud_rate" = MetricExpr.countStar := by decide
  have hl : (rows3.filter (fullPred {} none 0)).length = 3 := by decide
  refine ⟨by decide, by decide, by decide, by decide, he, by decide, rfl, ?_⟩
  simp [agg_honest, aggregate, aggEval, he, evalMetricExpr, headRaw, headNumber, hl]

end InsightX
